import Mathlib

/-!
Verification of the Beyond Academy candidate/role matching and outreach code.

The definitions below are a shallow embedding of the Python sources:
  * `src/etl/job_matcher.py`        — eligibility checks, compatibility scoring,
                                      `find_matches_for_contact`, `match_jobs_for_contact`;
  * `src/zoho_app/outreach_automation.py` — candidate pool builders, urgency check,
                                      follow-up scheduling;
  * `src/zoho_app/follow_up_workflow.py`  — follow-up sweep, `send_follow_up_email`,
                                      `mark_response_received`.

Modelling conventions:
  * Python `float` arithmetic is embedded as exact rationals (`ℚ`); the score
    constants (0.40, 0.25, …) and thresholds are exactly representable in the
    source's decimal notation, so the arithmetic of the claims is unchanged.
  * Dates are days since an arbitrary epoch (`Int`); datetimes are seconds (`Int`).
  * Django ORM rows are Lean structures, tables are lists; `CharField`/`TextField`
    columns that may be NULL are `Option String`.  `objects.get(id=..)` is a
    `List.find?` by id (ids are unique in the database).
  * External collaborators (Zoho HTTP API, OpenAI, SMTP transport) are oracles:
    explicit function parameters or pre-supplied fields, never modelled internally.
  * Strings are processed through `List Char`, mirroring Python's character-level
    semantics (`lower`, `strip`, `in`, `split`) for the ASCII data this system sees.
-/

namespace BA

/-! ### Python string primitives -/

/-- Python `str.lower()` on the ASCII range (the repository's data is ASCII). -/
def lowerChar (c : Char) : Char :=
  if 'A' ≤ c ∧ c ≤ 'Z' then Char.ofNat (c.toNat + 32) else c

/-- `s.lower()`. -/
def lowerStr (s : String) : String := ⟨s.data.map lowerChar⟩

/-- The characters Python `str.strip()` removes. -/
def isPySpace (c : Char) : Bool :=
  c = ' ' ∨ c = '\t' ∨ c = '\n' ∨ c = '\r' ∨ c = '\x0b' ∨ c = '\x0c'

/-- `s.strip()`. -/
def stripStr (s : String) : String :=
  ⟨((s.data.dropWhile isPySpace).reverse.dropWhile isPySpace).reverse⟩

/-- Python substring test `needle in hay` on character lists. -/
def subList (needle hay : List Char) : Bool :=
  (List.range (hay.length + 1)).any (fun i => needle.isPrefixOf (hay.drop i))

/-- Python `needle in hay` for strings. -/
def strIn (needle hay : String) : Bool := subList needle.data hay.data

/-- Django `field__icontains=needle`: case-insensitive substring. -/
def icontains (hay needle : String) : Bool := strIn (lowerStr needle) (lowerStr hay)

/-- Python truthiness of an optional string column: NULL and `""` are falsy. -/
def optTruthy : Option String → Bool
  | none => false
  | some s => s ≠ ""

/-- `opt or ''`: the string of an optional column, `""` for NULL. -/
def optStr : Option String → String
  | none => ""
  | some s => s

/-- Python `s.split(sep)` for a one-character separator (keeps empty pieces). -/
def pySplitChar (sep : Char) (s : String) : List String :=
  ((s.data.foldr
      (fun c (acc : List (List Char)) =>
        if c = sep then [] :: acc
        else match acc with
          | [] => [[c]]
          | g :: gs => (c :: g) :: gs)
      [[]]).map fun g => (⟨g⟩ : String))

/-- Python `s.split()` with no argument: split on whitespace runs, no empties. -/
def pySplitWs (s : String) : List String :=
  (((s.data.foldr
      (fun c (acc : List (List Char)) =>
        if isPySpace c then [] :: acc
        else match acc with
          | [] => [[c]]
          | g :: gs => (c :: g) :: gs)
      [[]]).filter (· ≠ [])).map fun g => (⟨g⟩ : String))

/-- Python `int(s)`: optional sign, decimal digits with single interior
underscores, surrounding whitespace allowed; `none` models `ValueError`. -/
def pyInt (s : String) : Option Int :=
  let cs := (stripStr s).data
  let (sign, body) : Int × List Char :=
    match cs with
    | '-' :: rest => (-1, rest)
    | '+' :: rest => (1, rest)
    | rest => (1, rest)
  let rec digitsVal : List Char → Bool → Option Nat → Option Nat
    | [], lastDigit, acc => if lastDigit then acc else none
    | c :: rest, lastDigit, acc =>
      if c.isDigit then
        digitsVal rest true (acc.map (fun n => n * 10 + (c.toNat - 48)))
      else if c = '_' ∧ lastDigit then
        digitsVal rest false acc
      else none
  match digitsVal body false (some 0) with
  | some n => if body = [] then none else some (sign * n)
  | none => none

/-! ### A small JSON reader (Python `json.loads`)

`extract_json_field` first tries `json.loads` on the field's text.  The reader
below follows Python's strict JSON grammar (plus the `NaN`/`Infinity` extras
`json.loads` accepts by default); number lexemes are kept verbatim.  Fuel is the
input length plus one, which bounds the nesting depth because every recursive
step first consumes at least one input character. -/

inductive Json where
  | null
  | jbool (b : Bool)
  | num (raw : String)
  | str (s : String)
  | arr (items : List Json)
  | obj (fields : List (String × Json))
deriving Repr, BEq

/-- JSON insignificant whitespace. -/
def jsonWs (cs : List Char) : List Char :=
  cs.dropWhile (fun c => c = ' ' ∨ c = '\t' ∨ c = '\n' ∨ c = '\r')

def hexVal (c : Char) : Option Nat :=
  if c.isDigit then some (c.toNat - 48)
  else if 'a' ≤ c ∧ c ≤ 'f' then some (c.toNat - 97 + 10)
  else if 'A' ≤ c ∧ c ≤ 'F' then some (c.toNat - 65 + 10)
  else none

/-- One escape sequence after a backslash inside a JSON string. -/
def parseEscape : List Char → Option (Char × List Char)
  | '"' :: r => some ('"', r)
  | '\\' :: r => some ('\\', r)
  | '/' :: r => some ('/', r)
  | 'b' :: r => some ('\x08', r)
  | 'f' :: r => some ('\x0c', r)
  | 'n' :: r => some ('\n', r)
  | 'r' :: r => some ('\r', r)
  | 't' :: r => some ('\t', r)
  | 'u' :: h1 :: h2 :: h3 :: h4 :: r =>
    match hexVal h1, hexVal h2, hexVal h3, hexVal h4 with
    | some a, some b, some c, some d => some (Char.ofNat (((a * 16 + b) * 16 + c) * 16 + d), r)
    | _, _, _, _ => none
  | _ => none

/-- JSON string body after the opening quote (strict: raw control chars refused). -/
def parseJString : Nat → List Char → Option (List Char × List Char)
  | 0, _ => none
  | _ + 1, '"' :: r => some ([], r)
  | fuel + 1, '\\' :: r =>
    match parseEscape r with
    | some (c, r') => (parseJString fuel r').map (fun p => (c :: p.1, p.2))
    | none => none
  | fuel + 1, c :: r =>
    if c.toNat < 32 then none
    else (parseJString fuel r).map (fun p => (c :: p.1, p.2))
  | _, [] => none

def spanDigits (cs : List Char) : List Char × List Char :=
  (cs.takeWhile Char.isDigit, cs.dropWhile Char.isDigit)

/-- The fraction part of a JSON number: `none` when a `.` has no digit after it. -/
def parseJFrac : List Char → Option (List Char × List Char)
  | '.' :: r =>
    let (ds, rest) := spanDigits r
    if ds = [] then none else some ('.' :: ds, rest)
  | r => some ([], r)

/-- The exponent part of a JSON number. -/
def parseJExp : List Char → Option (List Char × List Char)
  | e :: r =>
    if e = 'e' ∨ e = 'E' then
      let (es, r2) : List Char × List Char :=
        match r with
        | '+' :: r3 => (['+'], r3)
        | '-' :: r3 => (['-'], r3)
        | r3 => ([], r3)
      let (ds, r4) := spanDigits r2
      if ds = [] then none else some (e :: es ++ ds, r4)
    else some ([], e :: r)
  | [] => some ([], [])

/-- JSON number lexeme, kept verbatim: `-? int frac? exp?`. -/
def parseJNumber (cs : List Char) : Option (List Char × List Char) :=
  let (sgn, r1) : List Char × List Char :=
    match cs with
    | '-' :: r => (['-'], r)
    | r => ([], r)
  let intPart : Option (List Char × List Char) :=
    match r1 with
    | '0' :: r2 => some (['0'], r2)
    | c :: _ =>
      if c.isDigit then some (spanDigits r1)
      else none
    | [] => none
  match intPart with
  | none => none
  | some (ip, r2) =>
    match parseJFrac r2 with
    | none => none
    | some (frac, r3) =>
      match parseJExp r3 with
      | none => none
      | some (ex, r4) => some (sgn ++ ip ++ frac ++ ex, r4)


mutual

/-- One JSON value. -/
def parseValue : Nat → List Char → Option (Json × List Char)
  | 0, _ => none
  | fuel + 1, cs =>
    match cs with
    | '"' :: r =>
      (parseJString (fuel + 1) r).map (fun p => (Json.str ⟨p.1⟩, p.2))
    | '[' :: r =>
      (match jsonWs r with
       | ']' :: r2 => some (Json.arr [], r2)
       | cs2 => (parseElems fuel cs2).map (fun p => (Json.arr p.1, p.2)))
    | '{' :: r =>
      (match jsonWs r with
       | '}' :: r2 => some (Json.obj [], r2)
       | cs2 => (parseMembers fuel cs2).map (fun p => (Json.obj p.1, p.2)))
    | 't' :: 'r' :: 'u' :: 'e' :: r => some (Json.jbool true, r)
    | 'f' :: 'a' :: 'l' :: 's' :: 'e' :: r => some (Json.jbool false, r)
    | 'n' :: 'u' :: 'l' :: 'l' :: r => some (Json.null, r)
    | 'N' :: 'a' :: 'N' :: r => some (Json.num "NaN", r)
    | 'I' :: 'n' :: 'f' :: 'i' :: 'n' :: 'i' :: 't' :: 'y' :: r => some (Json.num "Infinity", r)
    | '-' :: 'I' :: 'n' :: 'f' :: 'i' :: 'n' :: 'i' :: 't' :: 'y' :: r =>
      some (Json.num "-Infinity", r)
    | _ => (parseJNumber cs).map (fun p => (Json.num ⟨p.1⟩, p.2))

/-- Array elements after the first non-`]` position. -/
def parseElems : Nat → List Char → Option (List Json × List Char)
  | 0, _ => none
  | fuel + 1, cs =>
    match parseValue fuel (jsonWs cs) with
    | none => none
    | some (v, rest) =>
      match jsonWs rest with
      | ',' :: r2 => (parseElems fuel r2).map (fun p => (v :: p.1, p.2))
      | ']' :: r2 => some ([v], r2)
      | _ => none

/-- Object members after the first non-`}` position. -/
def parseMembers : Nat → List Char → Option (List (String × Json) × List Char)
  | 0, _ => none
  | fuel + 1, cs =>
    match jsonWs cs with
    | '"' :: r =>
      (match parseJString fuel r with
       | none => none
       | some (k, r2) =>
         match jsonWs r2 with
         | ':' :: r3 =>
           (match parseValue fuel (jsonWs r3) with
            | none => none
            | some (v, r4) =>
              match jsonWs r4 with
              | ',' :: r5 => (parseMembers fuel r5).map (fun p => ((⟨k⟩, v) :: p.1, p.2))
              | '}' :: r5 => some ([(⟨k⟩, v)], r5)
              | _ => none)
         | _ => none)
    | _ => none

end

/-- `json.loads(s)`: whole-input parse, `none` for `JSONDecodeError`. -/
def pyJsonParse (s : String) : Option Json :=
  let cs := s.data
  match parseValue (cs.length + 1) (jsonWs cs) with
  | some (v, rest) => if jsonWs rest = [] then some v else none
  | none => none

mutual

/-- Python `repr(value)` of a decoded JSON value. -/
def pyRepr : Json → String
  | .null => "None"
  | .jbool true => "True"
  | .jbool false => "False"
  | .num raw => raw
  | .str s => "'" ++ s ++ "'"
  | .arr items => "[" ++ pyReprItems items ++ "]"
  | .obj fields => "\x7b" ++ pyReprFields fields ++ "\x7d"

/-- Comma-joined `repr`s of list items. -/
def pyReprItems : List Json → String
  | [] => ""
  | [j] => pyRepr j
  | j :: rest => pyRepr j ++ ", " ++ pyReprItems rest

/-- Comma-joined `repr`s of dict entries. -/
def pyReprFields : List (String × Json) → String
  | [] => ""
  | [(k, v)] => "'" ++ k ++ "': " ++ pyRepr v
  | (k, v) :: rest => "'" ++ k ++ "': " ++ pyRepr v ++ ", " ++ pyReprFields rest

end

/-- Python `str(value)` of a decoded JSON value: like `repr` except that a
top-level string is shown without quotes.  Number lexemes are echoed verbatim;
Python would print the parsed number, which agrees on the canonical integer and
decimal lexemes this database holds. -/
def pyStr : Json → String
  | .str s => s
  | j => pyRepr j

/-- Python truthiness of a decoded JSON value (`if item`). -/
def jsonTruthy : Json → Bool
  | .null => false
  | .jbool b => b
  | .str s => s ≠ ""
  | .arr items => ¬items.isEmpty
  | .obj fields => ¬fields.isEmpty
  | .num raw =>
    -- a number is falsy exactly when it is zero: every mantissa digit is 0
    if raw.data.any (fun c => c = 'N' ∨ c = 'I') then true
    else
      let mantissa := raw.data.takeWhile (fun c => ¬(c = 'e' ∨ c = 'E'))
      ¬((mantissa.filter Char.isDigit).all (· = '0'))

/-! ### `difflib.SequenceMatcher(None, a, b).ratio()`

The fuzzy tier of the traditional industry matcher compares tag and interest
with `SequenceMatcher.ratio()`.  The port below follows CPython's difflib with
`isjunk=None`: `b2j` maps a character to its (ascending) index list in `b`,
with the autojunk rule dropping characters that appear in more than one
percent of a `b` of length ≥ 200; the junk-extension loops of
`find_longest_match` are vacuous because the junk set is empty.  `ratio` is
`2 * M / (len a + len b)` where `M` is the total size of the matching blocks,
a sum the queue order of `get_matching_blocks` does not affect. -/

/-- Index list of `c` in `b` (difflib's `b2j`, with the autojunk rule). -/
def seqB2j (b : List Char) (c : Char) : List Nat :=
  let idxs := (List.range b.length).filter (fun j => b.get? j = some c)
  if b.length ≥ 200 ∧ idxs.length > b.length / 100 + 1 then [] else idxs

/-- `a[i]` / `b[j]` for indices the algorithm keeps in range. -/
def charAt (l : List Char) (i : Nat) : Char := l.getD i ' '

/-- The inner `for j in b2j.get(a[i], [])` loop of `find_longest_match`:
state is `(besti, bestj, bestsize)` and the new `j2len` dictionary (a total
function, 0 for absent keys).  `continue` below `blo` and `break` at `bhi`
amount to a filter because the index list ascends. -/
def flmRow (blo bhi : Nat) (j2len : Nat → Nat) (i : Nat) (js : List Nat)
    (st : (Nat × Nat × Nat) × (Nat → Nat)) : (Nat × Nat × Nat) × (Nat → Nat) :=
  (js.filter (fun j => blo ≤ j ∧ j < bhi)).foldl
    (fun st j =>
      let k := (if j = 0 then 0 else j2len (j - 1)) + 1
      let best := st.1
      let newj2len := fun j' => if j' = j then k else st.2 j'
      if k > best.2.2 then ((i + 1 - k, j + 1 - k, k), newj2len) else (best, newj2len))
    st

/-- Extension of the best block over equal characters to the left (difflib's
first `while` loop; the junk test is vacuously true with no junk). -/
def extendLeft (a b : List Char) (alo blo : Nat) :
    Nat → Nat × Nat × Nat → Nat × Nat × Nat
  | 0, st => st
  | fuel + 1, (besti, bestj, bestsize) =>
    if alo < besti ∧ blo < bestj ∧ charAt a (besti - 1) = charAt b (bestj - 1) then
      extendLeft a b alo blo fuel (besti - 1, bestj - 1, bestsize + 1)
    else (besti, bestj, bestsize)

/-- Extension of the best block over equal characters to the right. -/
def extendRight (a b : List Char) (ahi bhi : Nat) :
    Nat → Nat × Nat × Nat → Nat × Nat × Nat
  | 0, st => st
  | fuel + 1, (besti, bestj, bestsize) =>
    if besti + bestsize < ahi ∧ bestj + bestsize < bhi ∧
        charAt a (besti + bestsize) = charAt b (bestj + bestsize) then
      extendRight a b ahi bhi fuel (besti, bestj, bestsize + 1)
    else (besti, bestj, bestsize)

/-- difflib `find_longest_match(alo, ahi, blo, bhi)`. -/
def findLongestMatch (a b : List Char) (alo ahi blo bhi : Nat) : Nat × Nat × Nat :=
  let start : (Nat × Nat × Nat) × (Nat → Nat) := ((alo, blo, 0), fun _ => 0)
  let dp := (List.range' alo (ahi - alo)).foldl
    (fun (st : (Nat × Nat × Nat) × (Nat → Nat)) i =>
      flmRow blo bhi st.2 i (seqB2j b (charAt a i)) (st.1, fun _ => 0))
    start
  let best := extendLeft a b alo blo (a.length + b.length + 1) dp.1
  extendRight a b ahi bhi (a.length + b.length + 1) best

/-- Total size of the matching blocks of `a[alo:ahi]` vs `b[blo:bhi]`
(difflib `get_matching_blocks`, keeping only the sum the ratio needs).  Each
recursive call works on a strictly smaller pair of intervals, so fuel
`(ahi - alo) + (bhi - blo) + 1` never runs out. -/
def matchedTotal (a b : List Char) : Nat → Nat → Nat → Nat → Nat → Nat
  | 0, _, _, _, _ => 0
  | fuel + 1, alo, ahi, blo, bhi =>
    let (i, j, k) := findLongestMatch a b alo ahi blo bhi
    if k = 0 then 0
    else
      k + (if alo < i ∧ blo < j then matchedTotal a b fuel alo i blo j else 0)
        + (if i + k < ahi ∧ j + k < bhi then matchedTotal a b fuel (i + k) ahi (j + k) bhi else 0)

/-- `SequenceMatcher(None, a, b).ratio()` as an exact rational. -/
def similarityRatio (a b : List Char) : ℚ :=
  let total := a.length + b.length
  let m := matchedTotal a b (total + 1) 0 a.length 0 b.length
  if total = 0 then 1 else 2 * (m : ℚ) / total

/-- `f"{q:.2f}"`: two decimal places, ties to even (as Python's float
formatting rounds; exact on the rationals the similarity takes). -/
def format2dp (q : ℚ) : String :=
  let x := q * 100
  let fl := ⌊x⌋
  let fr := x - fl
  let n : Int :=
    if fr > 1/2 then fl + 1
    else if fr < 1/2 then fl
    else if fl % 2 = 0 then fl else fl + 1
  let ip := n / 100
  let fp := (n % 100).toNat
  toString ip ++ "." ++ (if fp < 10 then "0" else "") ++ toString fp


/-! ### Data model (`src/zoho_app/models.py`, the columns the matcher reads) -/

/-- A `Contact` row (candidate).  Presentation-only columns (names, bio,
university, …) that the matching logic never branches on are omitted. -/
structure Contact where
  id : String
  industry : Option String := none
  industry_choice_1 : Option String := none
  industry_choice_2 : Option String := none
  industry_choice_3 : Option String := none
  industry_1_areas : Option String := none
  industry_2_areas : Option String := none
  location : Option String := none
  current_location_v2 : Option String := none
  start_date : Option Int := none
  requires_a_visa : Option String := none
  partnership_specialist_id : Option String := none
  student_status : Option String := none
  role_success_stage : Option String := none
deriving Repr, DecidableEq

/-- An `InternRole` row. -/
structure InternRole where
  id : String
  name : Option String := none
  role_title : Option String := none
  role_tags : Option String := none
  location : Option String := none
  company_work_policy : Option String := none
  open_to_remote : Option String := none
  role_description_requirements : Option String := none
  role_function : Option String := none
  intern_company_id : Option String := none
  intern_company_name : Option String := none
deriving Repr, DecidableEq

/-- An `Account` row (company). -/
structure Account where
  id : String
  is_dnc : Bool := false
  follow_up_date : Option Int := none
  no_employees : Option String := none
deriving Repr, DecidableEq

/-- A `Deal` row. -/
structure Deal where
  account_id : Option String := none
  stage : Option String := none
  start_date : Option Int := none
  end_date : Option Int := none
deriving Repr, DecidableEq

/-- A `Skill` row (extracted from a candidate's CV). -/
structure Skill where
  contact_id : String
  skill_name : String
deriving Repr, DecidableEq

/-- The database and environment `JobMatcher` reads.  `rejectedDeals` is the
result of `sync_role_deals` per role id: the cached `RoleDealSync` count of
rejected/closed deals (the Zoho HTTP fetch behind a cache miss is external
I/O).  `today` is `date.today()` / `timezone.now().date()`. -/
structure MatcherDB where
  contacts : List Contact
  roles : List InternRole
  accounts : List Account
  deals : List Deal
  skills : List Skill
  rejectedDeals : String → Nat
  today : Int

/-- `Account.objects.get(id=..)` (`none` models `DoesNotExist`). -/
def findAccount (db : MatcherDB) (id : String) : Option Account :=
  db.accounts.find? (·.id = id)

/-- `Contact.objects.get(id=..)`. -/
def findContact (db : MatcherDB) (id : String) : Option Contact :=
  db.contacts.find? (·.id = id)

/-! ### `JobMatcher` helpers (`src/etl/job_matcher.py`) -/

/-- `JobMatcher.extract_json_field`: native JSON list/string first, then split
on the first of `,` / `;` / `|` present, else the whole cleaned string.  The
field always arrives as a database string (or NULL), so the `isinstance(...,
list)` branch of the source never fires here. -/
def extract_json_field (field_value : Option String) : List String :=
  match field_value with
  | none => []
  | some s =>
    if s = "" then []
    else
      let cleaned := stripStr s
      match pyJsonParse cleaned with
      | some (Json.arr items) =>
        (items.filter jsonTruthy).map (fun item => stripStr (pyStr item))
      | some (Json.str p) =>
        if stripStr p = "" then [] else [stripStr p]
      | some _ => []
      | none =>
        if strIn "," cleaned then
          ((pySplitChar ',' cleaned).map stripStr).filter (· ≠ "")
        else if strIn ";" cleaned then
          ((pySplitChar ';' cleaned).map stripStr).filter (· ≠ "")
        else if strIn "|" cleaned then
          ((pySplitChar '|' cleaned).map stripStr).filter (· ≠ "")
        else if cleaned = "" then [] else [cleaned]

/-- First-occurrence deduplication.  `get_contact_industries` deduplicates via
a Python set, whose iteration order is unspecified; only membership and count
matter downstream, which any order realises alike. -/
def dedupFirst (l : List String) : List String :=
  l.foldl (fun acc s => if s ∈ acc then acc else acc ++ [s]) []

/-- `JobMatcher.get_contact_industries`: the industry-1 and industry-2
interest buckets, normalised to lowercase stripped strings. -/
def get_contact_industries (contact : Contact) : List String × List String :=
  let industry_1 :=
    (if optTruthy contact.industry_choice_1 then [optStr contact.industry_choice_1] else []) ++
      extract_json_field contact.industry_1_areas
  let industry_2 :=
    (if optTruthy contact.industry_choice_2 then [optStr contact.industry_choice_2] else []) ++
      extract_json_field contact.industry_2_areas
  (dedupFirst ((industry_1.filter (· ≠ "")).map (fun i => lowerStr (stripStr i))),
   dedupFirst ((industry_2.filter (· ≠ "")).map (fun i => lowerStr (stripStr i))))

/-- `JobMatcher.get_role_tags`. -/
def get_role_tags (role : InternRole) : List String :=
  if ¬optTruthy role.role_tags then [] else extract_json_field role.role_tags

/-- `JobMatcher.check_industry_match_traditional`: exact tier, then substring
tier, then fuzzy tier at similarity ≥ 0.7. -/
def check_industry_match_traditional (contact_interests role_tags : List String) :
    Bool × List String :=
  if contact_interests = [] ∨ role_tags = [] then (false, [])
  else
    let contact_interests_lower := contact_interests.map (fun i => stripStr (lowerStr i))
    let role_tags_lower := role_tags.map (fun t => stripStr (lowerStr t))
    let pairs := role_tags.zip role_tags_lower
    let ipairs := contact_interests.zip contact_interests_lower
    let exact : List String :=
      pairs.filterMap (fun (tag, tag_lower) =>
        if tag_lower ∈ contact_interests_lower then some (tag ++ " (exact match)") else none)
    let matched : List String :=
      if exact ≠ [] then exact
      else
        pairs.filterMap (fun (tag, tag_lower) =>
          (ipairs.find? (fun (_, interest_lower) =>
              (strIn tag_lower interest_lower ∨ strIn interest_lower tag_lower) ∧
                tag_lower.data.length > 2)).map
            (fun (interest, _) => interest ++ " ~ " ++ tag))
    let matched : List String :=
      if matched ≠ [] then matched
      else
        pairs.filterMap (fun (tag, tag_lower) =>
          (ipairs.find? (fun (_, interest_lower) =>
              similarityRatio tag_lower.data interest_lower.data ≥ 0.7)).map
            (fun (interest, interest_lower) =>
              interest ++ " ≈ " ++ tag ++ " (" ++
                format2dp (similarityRatio tag_lower.data interest_lower.data) ++ ")"))
    (matched ≠ [], matched)

/-- The optional GPT-backed semantic matcher (`check_industry_match_with_gpt`):
an external oracle.  On an API failure the source falls back to the
traditional matcher, so an oracle value covers that case too. -/
def GptMatcher := List String → List String → Bool × List String

/-- `JobMatcher.check_industry_match`: empty inputs never match; otherwise the
GPT oracle when a client is configured, else the traditional matcher. -/
def check_industry_match (gpt : Option GptMatcher)
    (contact_interests role_tags : List String) : Bool × List String :=
  if contact_interests = [] ∨ role_tags = [] then (false, [])
  else
    match gpt with
    | some g => g contact_interests role_tags
    | none => check_industry_match_traditional contact_interests role_tags

/-- `JobMatcher.check_location_match`: primary location field, else the
current-location field; both sides lowercased and stripped; both must be
non-empty and equal or contain one another. -/
def check_location_match (contact : Contact) (role : InternRole) : Bool :=
  let contact_location :=
    if optTruthy contact.location then optStr contact.location
    else if optTruthy contact.current_location_v2 then optStr contact.current_location_v2
    else ""
  let contact_location := stripStr (lowerStr contact_location)
  let role_location := stripStr (lowerStr (optStr role.location))
  if contact_location = "" ∨ role_location = "" then false
  else
    contact_location = role_location ∨
      strIn contact_location role_location ∨ strIn role_location contact_location

/-- `JobMatcher.check_work_policy_match`: keyword-derived role modes with an
office+hybrid default, remote candidates requiring remote support, and remote
support acceptable to every candidate. -/
def check_work_policy_match (contact : Contact) (role : InternRole) : Bool :=
  let contact_location := lowerStr (optStr contact.location)
  let current_location := lowerStr (optStr contact.current_location_v2)
  let is_contact_remote :=
    strIn "remote" contact_location ∨ strIn "remote" current_location
  let contact_can_work_office := true
  let contact_can_work_hybrid := true
  let role_policy := lowerStr (optStr role.company_work_policy)
  let role_remote := lowerStr (optStr role.open_to_remote)
  let role_supports_remote :=
    strIn "remote" role_policy ∨ strIn "yes" role_remote ∨ strIn "true" role_remote
  let role_supports_office :=
    strIn "office" role_policy ∨ strIn "on-site" role_policy ∨ strIn "onsite" role_policy
  let role_supports_hybrid :=
    strIn "hybrid" role_policy ∨ strIn "flexible" role_policy
  let role_supports_office :=
    if ¬(role_supports_remote ∨ role_supports_office ∨ role_supports_hybrid) then true
    else role_supports_office
  let role_supports_hybrid :=
    if ¬(role_supports_remote ∨
          (strIn "office" role_policy ∨ strIn "on-site" role_policy ∨ strIn "onsite" role_policy) ∨
          role_supports_hybrid) then true
    else role_supports_hybrid
  if is_contact_remote then role_supports_remote
  else
    (role_supports_office ∧ contact_can_work_office) ∨
      (role_supports_hybrid ∧ contact_can_work_hybrid) ∨ role_supports_remote

/-- `JobMatcher.get_contact_skills`. -/
def get_contact_skills (db : MatcherDB) (contact_id : String) : List String :=
  (db.skills.filter (·.contact_id = contact_id)).map (·.skill_name)

/-- Word characters of the regex `\w` (the data here is ASCII). -/
def isWordChar (c : Char) : Bool := c.isAlphanum ∨ c = '_'

/-- Tokens of `re.findall(r"[a-zA-Z0-9\+\#]+", text)`. -/
def findTokens (cs : List Char) : List String :=
  (((cs.foldr
      (fun c (acc : List (List Char)) =>
        if c.isAlphanum ∨ c = '+' ∨ c = '#' then
          match acc with
          | [] => [[c]]
          | g :: gs => (c :: g) :: gs
        else [] :: acc)
      [[]]).filter (· ≠ [])).map fun g => (⟨g⟩ : String))

/-- A `\b` word boundary at position `p` of `t` (out-of-range counts as
non-word). -/
def boundaryAt (t : List Char) (p : Nat) : Bool :=
  let before := if p = 0 then false else isWordChar (charAt t (p - 1))
  let here := if p < t.length then isWordChar (charAt t p) else false
  before ≠ here

/-- `re.search(rf"\b{re.escape(needle)}\b", text)` for a literal needle. -/
def wholeWordSearch (needle text : List Char) : Bool :=
  (List.range (text.length + 1)).any (fun i =>
    needle.isPrefixOf (text.drop i) ∧ boundaryAt text i ∧ boundaryAt text (i + needle.length))

/-- `JobMatcher.check_skill_match`: token membership for short or symbolic
skills, whole-word search otherwise, with a long-token fallback for multi-word
skills. -/
def check_skill_match (db : MatcherDB) (contact_id : String) (role : InternRole) :
    Bool × List String :=
  let contact_skills := get_contact_skills db contact_id
  let role_description := lowerStr (optStr role.role_description_requirements)
  let role_function := lowerStr (optStr role.role_function)
  let role_text := stripStr (role_description ++ " " ++ role_function)
  if contact_skills = [] ∨ role_text = "" then (false, [])
  else
    let role_tokens := findTokens (lowerStr role_text).data
    let matched_skills := contact_skills.filter (fun skill =>
      let skill_lower := stripStr (lowerStr skill)
      if skill_lower.data.length ≤ 2 ∨ 
          skill_lower.data.any (fun ch => ch = '+' ∨ ch = '#') then
        skill_lower ∈ role_tokens
      else if wholeWordSearch skill_lower.data role_text.data then true
      else (pySplitWs skill_lower).any (fun token =>
        token.data.length > 3 ∧ token ∈ role_tokens))
    (matched_skills ≠ [], matched_skills)

/-- `JobMatcher.check_company_dnc_status`: `true` means excluded. -/
def check_company_dnc_status (db : MatcherDB) (role : InternRole) : Bool :=
  if ¬optTruthy role.intern_company_id then false
  else
    match findAccount db (optStr role.intern_company_id) with
    | some account => account.is_dnc
    | none => false

/-- `JobMatcher.check_company_follow_up_date`: `true` (excluded) when the
company's follow-up date is missing or not strictly in the future. -/
def check_company_follow_up_date (db : MatcherDB) (role : InternRole) : Bool :=
  if ¬optTruthy role.intern_company_id then false
  else
    match findAccount db (optStr role.intern_company_id) with
    | none => false
    | some account =>
      match account.follow_up_date with
      | none => true
      | some follow_up_date => follow_up_date ≤ db.today

/-- The `Role Confirmed` deals of a company, optionally restricted to deals
whose `[start, end]` window contains the contact's desired start date. -/
def confirmedDeals (db : MatcherDB) (company_id : String) (contact_start : Option Int) :
    List Deal :=
  let base := db.deals.filter (fun d =>
    d.account_id = some company_id ∧ icontains (optStr d.stage) "Role Confirmed")
  match contact_start with
  | none => base
  | some cs =>
    base.filter (fun d =>
      match d.start_date, d.end_date with
      | some s, some e => s ≤ cs ∧ cs ≤ e
      | _, _ => false)

/-- `JobMatcher.check_intern_to_employee_ratio`: `true` means excluded.  A
missing or non-numeric employee count fails closed.  For a zero employee count
Python raises `ZeroDivisionError`, caught by the handler that returns `false`;
rational division by zero yields 0 > 0.25 = `false`, the same outcome. -/
def check_intern_to_employee_ratio (db : MatcherDB) (role : InternRole)
    (contact : Option Contact) : Bool :=
  if ¬optTruthy role.intern_company_id then false
  else
    match findAccount db (optStr role.intern_company_id) with
    | none => false
    | some account =>
      if ¬optTruthy account.no_employees then true
      else
        match pyInt (optStr account.no_employees) with
        | none => true
        | some employee_count =>
          let confirmed_deals_count :=
            (confirmedDeals db (optStr role.intern_company_id)
              (contact.bind (·.start_date))).length
          if confirmed_deals_count = 0 then false
          else (confirmed_deals_count : ℚ) / (employee_count : ℚ) > 0.25

/-- The four active-pipeline stages of `check_active_deals_limit`. -/
def activeStages : List String :=
  ["Scheduling Interview", "Pending Interview", "Rescheduling Interview", "Pending Outcome"]

/-- `JobMatcher.check_active_deals_limit`: `true` (excluded) with more than 3
active deals; the count falls back to case-insensitive containment when the
exact-stage count is zero. -/
def check_active_deals_limit (db : MatcherDB) (role : InternRole) : Bool :=
  if ¬optTruthy role.intern_company_id then false
  else
    let cid := optStr role.intern_company_id
    let exact := (db.deals.filter (fun d =>
      d.account_id = some cid ∧ activeStages.any (fun s => d.stage = some s))).length
    let count :=
      if exact = 0 then
        (db.deals.filter (fun d =>
          d.account_id = some cid ∧
            activeStages.any (fun s => icontains (optStr d.stage) s))).length
      else exact
    count > 3

/-- `JobMatcher.check_start_date_priority`: the contact's start date falls in
the 14 days up to (and including) a confirmed deal's end date. -/
def check_start_date_priority (db : MatcherDB) (contact : Contact) (role : InternRole) :
    Bool :=
  match contact.start_date with
  | none => false
  | some contact_start_date =>
    if ¬optTruthy role.intern_company_id then false
    else
      (confirmedDeals db (optStr role.intern_company_id) none).any (fun deal =>
        match deal.end_date with
        | none => false
        | some deal_end_date =>
          deal_end_date - 14 ≤ contact_start_date ∧ contact_start_date ≤ deal_end_date)

/-- `JobMatcher.calculate_match_score`: weighted industry/skill contributions,
start-date bonus, rejected-deals penalty, clamped to [0, 1]. -/
def calculate_match_score (industry_1_match industry_2_match skill_match : Bool)
    (matched_industry_1 matched_industry_2 matched_skills : List String)
    (start_date_priority : Bool) (rejected_deals_count : Nat) : ℚ :=
  let score : ℚ := 0
  let score := if industry_1_match then
    score + 0.40 * min 1 ((matched_industry_1.length : ℚ) / 1) else score
  let score := if industry_2_match then
    score + 0.20 * min 1 ((matched_industry_2.length : ℚ) / 1) else score
  let score := if skill_match then
    score + 0.25 * min 1 ((matched_skills.length : ℚ) / 3) else score
  let score := if start_date_priority then score + 0.15 else score
  let score := if rejected_deals_count ≥ 2 then score - 0.15 else score
  max 0 (min 1 score)


/-! ### `find_matches_for_contact` and `match_jobs_for_contact` -/

/-- One computed match, as `find_matches_for_contact` appends it. -/
structure MatchRec where
  contact_id : String
  intern_role_id : String
  match_score : ℚ
  industry_1_match : Bool
  industry_2_match : Bool
  skill_match : Bool
  start_date_priority : Bool
  matched_industry_1 : List String
  matched_industry_2 : List String
  matched_skills : List String
  match_reason : String
  role_title : Option String
  company_name : Option String
deriving Repr, DecidableEq

/-- The reason string of a computed match. -/
def buildMatchReason (industry_1_match industry_2_match skill_match : Bool)
    (matched_industry_1 matched_industry_2 matched_skills : List String)
    (start_date_priority : Bool) (rejected_deals_count : Nat) : String :=
  let parts :=
    (if industry_1_match then
      ["Industry 1: " ++ String.intercalate ", " (matched_industry_1.take 3)] else []) ++
    (if industry_2_match then
      ["Industry 2: " ++ String.intercalate ", " (matched_industry_2.take 3)] else []) ++
    (if skill_match then
      ["Skills: " ++ String.intercalate ", " (matched_skills.take 3)] else []) ++
    (if start_date_priority then ["Start date priority (+0.10)"] else []) ++
    (if rejected_deals_count ≥ 2 then
      ["Rejected deals penalty (" ++ toString rejected_deals_count ++ " deals, -0.10)"]
     else [])
  String.intercalate "; " parts

/-- The loop body of `find_matches_for_contact` for one role: `none` for each
`continue`, `some` for an appended match.  The `try/except` around the body
catches external I/O errors, which a pure model does not raise. -/
def matchRoleForContact (gpt : Option GptMatcher) (db : MatcherDB) (contact : Contact)
    (industry_1 industry_2 : List String) (role : InternRole) : Option MatchRec :=
  let rejected_deals_count := db.rejectedDeals role.id
  if check_company_dnc_status db role then none
  else if check_intern_to_employee_ratio db role (some contact) then none
  else if check_active_deals_limit db role then none
  else if check_location_match contact role = false then none
  else
    let role_tags := get_role_tags role
    let ind1 := check_industry_match gpt industry_1 role_tags
    let ind2 := check_industry_match gpt industry_2 role_tags
    if ¬ind1.1 ∧ ¬ind2.1 then none
    else
      let sk := check_skill_match db contact.id role
      let start_date_priority := check_start_date_priority db contact role
      let match_score := calculate_match_score ind1.1 ind2.1 sk.1
        ind1.2 ind2.2 sk.2 start_date_priority rejected_deals_count
      if match_score > 0.1 then
        some
          { contact_id := contact.id
            intern_role_id := role.id
            match_score := match_score
            industry_1_match := ind1.1
            industry_2_match := ind2.1
            skill_match := sk.1
            start_date_priority := start_date_priority
            matched_industry_1 := ind1.2
            matched_industry_2 := ind2.2
            matched_skills := sk.2
            match_reason := buildMatchReason ind1.1 ind2.1 sk.1
              ind1.2 ind2.2 sk.2 start_date_priority rejected_deals_count
            role_title := if optTruthy role.role_title then role.role_title else role.name
            company_name := role.intern_company_name }
      else none

/-- Stable insertion of a match into a list sorted by descending score: after
every element whose score is at least as large. -/
def insertByScore : List MatchRec → MatchRec → List MatchRec
  | [], m => [m]
  | x :: xs, m =>
    if x.match_score ≥ m.match_score then x :: insertByScore xs m else m :: x :: xs

/-- `matches.sort(key=score, reverse=True)`: a stable descending sort (Python's
sort is stable; every stable sort produces the same list). -/
def sortByScoreDesc (l : List MatchRec) : List MatchRec := l.foldl insertByScore []

/-- `JobMatcher.find_matches_for_contact`: the roles whose work-policy text
mentions Hybrid or Office-based, put through the per-role eligibility gates and
scoring, sorted by descending score.  (When the result is empty the source also
sends a notification email — an external effect.) -/
def find_matches_for_contact (gpt : Option GptMatcher) (db : MatcherDB)
    (contact_id : String) : List MatchRec :=
  match findContact db contact_id with
  | none => []
  | some contact =>
    let (industry_1, industry_2) := get_contact_industries contact
    let roles := db.roles.filter (fun r =>
      icontains (optStr r.company_work_policy) "Hybrid" ∨
        icontains (optStr r.company_work_policy) "Office-based")
    sortByScoreDesc
      (roles.filterMap (matchRoleForContact gpt db contact industry_1 industry_2))

/-- The `JobMatch` rows the storage paths write (the columns the outreach logic
reads; the JSON-dumped explainability columns stay on `MatchRec`). -/
structure JobMatch where
  contact_id : String
  intern_role_id : String
  match_score : ℚ
  status : String
deriving Repr, DecidableEq

/-- A computed match as a stored `JobMatch` row with `status='active'`. -/
def toJobMatch (m : MatchRec) : JobMatch :=
  { contact_id := m.contact_id
    intern_role_id := m.intern_role_id
    match_score := m.match_score
    status := "active" }

/-- The column names of the `JobMatch` model (`models.py`), i.e. the keyword
arguments `Model.__init__` accepts (plus the implicit primary key `id`). -/
def jobMatchFields : List String :=
  ["id", "contact_id", "intern_role_id", "match_score", "industry_match",
   "location_match", "work_policy_match", "skill_match", "matched_industries",
   "matched_skills", "match_reason", "status", "created_at", "updated_at"]

/-- The keyword arguments the recompute's `JobMatch.objects.create` call
passes (`job_matcher.py:1152-1164`). -/
def jobMatchCreateKwargs : List String :=
  ["contact_id", "intern_role_id", "match_score", "industry_1_match",
   "industry_2_match", "skill_match", "matched_industry_1",
   "matched_industry_2", "matched_skills", "match_reason", "status"]

/-- One `JobMatch.objects.create(...)` call of the recompute loop: Django's
`Model.__init__` raises `TypeError` when a keyword argument is not a model
field, before any insert; the caller catches the exception per row and
continues, so no row results in that case. -/
def jobMatchCreate (m : MatchRec) : Option JobMatch :=
  if jobMatchCreateKwargs.all (fun k => jobMatchFields.contains k) then
    some (toJobMatch m)
  else none

/-- `match_jobs_for_contact` (the standalone recompute): all computed matches
filtered by `min_score` (default 0.2); inside one transaction every prior
`JobMatch` row of the contact is deleted and each kept match is fed to
`JobMatch.objects.create` under a per-row `except Exception: continue`.  The
value is the contact's stored rows after the call. -/
def match_jobs_for_contact (gpt : Option GptMatcher) (db : MatcherDB)
    (contact_id : String) (min_score : ℚ := 0.2) : List JobMatch :=
  let found := find_matches_for_contact gpt db contact_id
  let quality_matches := found.filter (fun m => m.match_score ≥ min_score)
  quality_matches.filterMap jobMatchCreate

/-! ### Outreach data model (`src/zoho_app/models.py`, outreach tables) -/

/-- An `OutreachLog` row.  `recipients` and `candidate_ids` are stored as JSON
dumps of string lists; `json.loads ∘ json.dumps` is the identity on them, so
they are carried as lists. -/
structure OutreachLog where
  id : Nat
  intern_role_id : String
  role_title : Option String := none
  company_id : Option String := none
  company_name : Option String := none
  subject : String := ""
  email_type : String := "initial"
  sender_email : String := ""
  sender_name : Option String := none
  recipients : List String := []
  candidate_ids : List String := []
  candidates_count : Nat := 0
  is_urgent : Bool := false
  is_sent : Bool := false
  sent_at : Option Int := none
  message_id : Option String := none
  thread_id : Option String := none
  in_reply_to : Option String := none
  parent_outreach_log : Option Nat := none
  follow_up_count : Nat := 0
  last_follow_up_date : Option Int := none
  next_follow_up_date : Option Int := none
  response_received : Bool := false
  response_date : Option Int := none
  response_type : Option String := none
deriving Repr, DecidableEq

/-- A `FollowUpTask` row. -/
structure FollowUpTask where
  id : Nat
  outreach_log : Nat
  follow_up_type : String
  scheduled_date : Int
  completed : Bool := false
  completed_at : Option Int := none
deriving Repr, DecidableEq

/-- A `CandidateOutreachHistory` row. -/
structure CandidateOutreachHistory where
  contact_id : String
  intern_role_id : String
  outreach_log : Nat
  cycle_number : Nat := 1
  initial_outreach_date : Int := 0
  last_follow_up_date : Option Int := none
  status : String := "active"
  response_received : Bool := false
  response_date : Option Int := none
  response_type : Option String := none
deriving Repr, DecidableEq

/-- The database the outreach automation and follow-up workflow read and write.
`today` is `timezone.now().date()`. -/
structure AppDB where
  contacts : List Contact
  jobMatches : List JobMatch
  history : List CandidateOutreachHistory
  outreachLogs : List OutreachLog
  followUpTasks : List FollowUpTask
  today : Int

/-! ### `OutreachAutomation` (`src/zoho_app/outreach_automation.py`) -/

/-- `OutreachAutomation.check_urgency`: visa required and start under 120 days
away, or visa not required and start under 60 days away. -/
def check_urgency (today : Int) (contact : Contact) : Bool :=
  match contact.start_date with
  | none => false
  | some start_date =>
    let days_until_start := start_date - today
    match contact.requires_a_visa with
    | none => false
    | some requires_visa =>
      if requires_visa ≠ "" ∧ lowerStr requires_visa = "yes" then days_until_start < 120
      else if requires_visa ≠ "" ∧ lowerStr requires_visa = "no" then days_until_start < 60
      else false

/-- What the pool builders keep of a candidate (the source also copies
presentation columns — bio, university, … — into `candidate_info`; the
selection logic reads none of them). -/
structure CandInfo where
  contact_id : String
  match_score : ℚ
deriving Repr, DecidableEq

/-- Stable insertion for the pool ordering `ORDER BY intern_role_id, -match_score`. -/
def insPoolOrder : List JobMatch → JobMatch → List JobMatch
  | [], m => [m]
  | x :: xs, m =>
    if x.intern_role_id < m.intern_role_id ∨
        (x.intern_role_id = m.intern_role_id ∧ x.match_score ≥ m.match_score) then
      x :: insPoolOrder xs m
    else m :: x :: xs

/-- The `JobMatch` queryset both pool builders start from:
`status='active', match_score__gte=0.2` ordered by role id then descending
score (a stable sort; SQL returns one of the orders a stable sort of some
input order produces). -/
def poolMatches (db : AppDB) : List JobMatch :=
  (db.jobMatches.filter (fun jm =>
    jm.status = "active" ∧ jm.match_score ≥ 0.2)).foldl insPoolOrder []

/-- `CandidateOutreachHistory.objects.filter(contact_id=.., intern_role_id=..)
.exists()`: the candidate was already pitched to the role in some cycle. -/
def alreadyPitched (db : AppDB) (contact_id intern_role_id : String) : Bool :=
  db.history.any (fun h =>
    h.contact_id = contact_id ∧ h.intern_role_id = intern_role_id)

/-- The state threaded through `get_urgent_candidates_by_role`'s loop:
`role_candidates` is a Python dict (insertion-ordered association list with
unique keys) and `used_candidate_ids` the global per-pass set. -/
structure UrgentState where
  buckets : List (String × List CandInfo)
  used : List String

/-- `dict.setdefault`-style entry creation: `role_candidates[rid] = []` when
absent. -/
def ensureBucket (buckets : List (String × List CandInfo)) (rid : String) :
    List (String × List CandInfo) :=
  if buckets.any (fun e => e.1 = rid) then buckets else buckets ++ [(rid, [])]

/-- The list a bucket currently holds. -/
def bucketList (buckets : List (String × List CandInfo)) (rid : String) : List CandInfo :=
  match buckets.find? (fun e => e.1 = rid) with
  | some e => e.2
  | none => []

/-- `role_candidates[rid].append(ci)` (keys are unique, so updating every
entry with the key equals updating the one Python dict slot). -/
def appendBucket (buckets : List (String × List CandInfo)) (rid : String)
    (ci : CandInfo) : List (String × List CandInfo) :=
  buckets.map (fun e => if e.1 = rid then (e.1, e.2 ++ [ci]) else e)

/-- One iteration of `get_urgent_candidates_by_role`'s loop over the sorted
matches. -/
def urgentStep (db : AppDB) (limit_per_role : Nat) (st : UrgentState)
    (jm : JobMatch) : UrgentState :=
  let role_id := jm.intern_role_id
  let candidate_id := jm.contact_id
  match (db.contacts.filter (fun c => c.id = candidate_id)).head? with
  | none => st
  | some urgency_contact =>
    if ¬check_urgency db.today urgency_contact then st
    else if alreadyPitched db candidate_id role_id then st
    else if candidate_id ∈ st.used then st
    else
      let buckets := ensureBucket st.buckets role_id
      if (bucketList buckets role_id).length < limit_per_role then
        { buckets := appendBucket buckets role_id
            { contact_id := urgency_contact.id, match_score := jm.match_score }
          used := st.used ++ [candidate_id] }
      else { st with buckets := buckets }

/-- `OutreachAutomation.get_urgent_candidates_by_role`: top urgent, never
pitched candidates per role, each candidate used at most once across the pass;
roles left with no candidate are dropped. -/
def get_urgent_candidates_by_role (db : AppDB) (limit_per_role : Nat := 3) :
    List (String × List CandInfo) :=
  let final := (poolMatches db).foldl (urgentStep db limit_per_role)
    { buckets := [], used := [] }
  final.buckets.filter (fun e => e.2 ≠ [])

/-- The state of `get_top_candidates_by_role`'s loop: the buckets plus the
`limit_per_candidate` counters (an association list, 0 when absent). -/
structure TopState where
  buckets : List (String × List CandInfo)
  perCandidate : List (String × Nat)

/-- `limit_per_candidate.get(cid, 0)`. -/
def perCandCount (counters : List (String × Nat)) (cid : String) : Nat :=
  match counters.find? (fun e => e.1 = cid) with
  | some e => e.2
  | none => 0

/-- `limit_per_candidate[cid] += 1` / `= 1`. -/
def bumpPerCand (counters : List (String × Nat)) (cid : String) : List (String × Nat) :=
  if counters.any (fun e => e.1 = cid) then
    counters.map (fun e => if e.1 = cid then (e.1, e.2 + 1) else e)
  else counters ++ [(cid, 1)]

/-- One iteration of `get_top_candidates_by_role`'s loop: only non-urgent
candidates in `ACTIVE: Placement` (role not already confirmed), not already
pitched to the role, and only while the candidate's own allocation counter has
not passed 3.  Django's `.exclude(role_success_stage='Role Confirmed')` keeps
rows whose column is NULL (exclude is the complement of filter), matching the
negated equality below. -/
def topStep (db : AppDB) (limit_per_role : Nat) (st : TopState) (jm : JobMatch) :
    TopState :=
  let role_id := jm.intern_role_id
  let candidate_id := jm.contact_id
  let urgency_contact := (db.contacts.filter (fun c =>
    c.id = candidate_id ∧ c.student_status = some "ACTIVE: Placement" ∧
      ¬(c.role_success_stage = some "Role Confirmed"))).head?
  match urgency_contact with
  | none => st
  | some urgency_contact =>
    if check_urgency db.today urgency_contact then st
    else if alreadyPitched db candidate_id role_id then st
    else if perCandCount st.perCandidate candidate_id > 3 then st
    else
      let buckets := ensureBucket st.buckets role_id
      if (bucketList buckets role_id).length < limit_per_role then
        match db.contacts.find? (fun c => c.id = candidate_id) with
        | none => { st with buckets := buckets }
        | some contact =>
          { buckets := appendBucket buckets role_id
              { contact_id := contact.id, match_score := jm.match_score }
            perCandidate := bumpPerCand st.perCandidate candidate_id }
      else { st with buckets := buckets }

/-- `OutreachAutomation.get_top_candidates_by_role`: the normal (non-urgent)
pass. -/
def get_top_candidates_by_role (db : AppDB) (limit_per_role : Nat := 3) :
    List (String × List CandInfo) :=
  let final := (poolMatches db).foldl (topStep db limit_per_role)
    { buckets := [], perCandidate := [] }
  final.buckets.filter (fun e => e.2 ≠ [])

/-- `OutreachAutomation.schedule_follow_ups`: three tasks at +48h, +96h and
+144h from `now` (`timezone.now()`, seconds), and the log's
`next_follow_up_date` set to the first.  `freshId` stands for the database's
next auto-assigned primary key. -/
def schedule_follow_ups (db : AppDB) (log : OutreachLog) (now : Int) (freshId : Nat) :
    AppDB :=
  let follow_up_date := now + 48 * 3600
  let t1 : FollowUpTask :=
    { id := freshId, outreach_log := log.id, follow_up_type := "follow_up",
      scheduled_date := follow_up_date }
  let t2 : FollowUpTask :=
    { id := freshId + 1, outreach_log := log.id, follow_up_type := "final",
      scheduled_date := now + 96 * 3600 }
  let t3 : FollowUpTask :=
    { id := freshId + 2, outreach_log := log.id, follow_up_type := "move_to_next",
      scheduled_date := now + 144 * 3600 }
  { db with
    followUpTasks := db.followUpTasks ++ [t1, t2, t3]
    outreachLogs := db.outreachLogs.map (fun l =>
      if l.id = log.id then { l with next_follow_up_date := some follow_up_date } else l) }

/-! ### `FollowUpWorkflow` (`src/zoho_app/follow_up_workflow.py`) -/

/-- The tasks a sweep selects: `completed=False, scheduled_date__lte=now`
(the sweep orders them by `scheduled_date`; membership is what the claims
need). -/
def pending_follow_up_tasks (db : AppDB) (now : Int) : List FollowUpTask :=
  db.followUpTasks.filter (fun t => t.completed = false ∧ t.scheduled_date ≤ now)

/-- `FollowUpWorkflow.mark_response_received`: sets the log's response fields,
marks the matching history rows responded, and completes the log's still
incomplete tasks.  Returns the updated database and the method's boolean
(`false` and no change when the log id resolves to no row). -/
def mark_response_received (db : AppDB) (outreach_log_id : Nat)
    (response_type : String) (now : Int) : AppDB × Bool :=
  match db.outreachLogs.find? (fun l => l.id = outreach_log_id) with
  | none => (db, false)
  | some log =>
    let logs := db.outreachLogs.map (fun l =>
      if l.id = outreach_log_id then
        { l with response_received := true, response_date := some now,
                 response_type := some response_type }
      else l)
    let history := db.history.map (fun h =>
      if h.outreach_log = log.id ∧ h.contact_id ∈ log.candidate_ids then
        { h with response_received := true, response_date := some now,
                 response_type := some response_type, status := "responded" }
      else h)
    let tasks := db.followUpTasks.map (fun t =>
      if t.outreach_log = log.id ∧ t.completed = false then
        { t with completed := true, completed_at := some now }
      else t)
    ({ db with outreachLogs := logs, history := history, followUpTasks := tasks }, true)

/-- `task.completed = True; task.completed_at = now; task.save()`. -/
def completeTask (db : AppDB) (task_id : Nat) (now : Int) : AppDB :=
  { db with followUpTasks := db.followUpTasks.map (fun t =>
      if t.id = task_id then { t with completed := true, completed_at := some now } else t) }

/-- The partnership-specialist directory (`get_partnership_specialist_email`,
a Zoho Users HTTP lookup): an external oracle from specialist id to a
resolved active mailbox. -/
structure SenderInfo where
  email : String
  full_name : String
deriving Repr, DecidableEq

/-- The sender-resolution loop of `send_follow_up_email` /
`process_outreach_for_role`: the first candidate with a truthy specialist id
whose directory lookup succeeds. -/
def resolveSender (specialist : String → Option SenderInfo) (candidates : List Contact) :
    Option SenderInfo :=
  candidates.findSome? (fun c =>
    match c.partnership_specialist_id with
    | some pid => if pid ≠ "" then specialist pid else none
    | none => none)

/-- `FollowUpWorkflow.send_follow_up_email` for a due `follow_up`/`final`
task.  `specialist` and `sendOk` are the external directory and SMTP-send
outcomes; `newLogId` the next primary key.  Returns the updated database and
the handler's result status.  Email composition (`create_outreach_email`) is
template text around the log's stored recipients; of its output only the
subject threading and the recipient list reach the stored state, and
`send_email` fails up front on an empty recipient list. -/
def send_follow_up_email (specialist : String → Option SenderInfo) (sendOk : Bool)
    (db : AppDB) (task : FollowUpTask) (log : OutreachLog) (now : Int)
    (newLogId : Nat) : AppDB × String :=
  let candidates := log.candidate_ids.filterMap (fun cid =>
    db.contacts.find? (fun c => c.id = cid))
  if candidates = [] then
    (completeTask db task.id now, "skipped:no_candidates")
  else
    let recipients := log.recipients
    match resolveSender specialist candidates with
    | none => (db, "error:no_partnership_specialist")
    | some sender_info =>
      let success := recipients ≠ [] ∧ sendOk
      if success then
        let follow_up_log : OutreachLog :=
          { id := newLogId
            intern_role_id := log.intern_role_id
            role_title := log.role_title
            company_id := log.company_id
            company_name := log.company_name
            subject := if log.subject ≠ "" then "Re: " ++ log.subject else log.subject
            email_type := task.follow_up_type
            sender_email := sender_info.email
            sender_name := some sender_info.full_name
            recipients := log.recipients
            candidate_ids := log.candidate_ids
            candidates_count := log.candidates_count
            is_urgent := log.is_urgent
            is_sent := true
            sent_at := some now
            follow_up_count := log.follow_up_count + 1
            parent_outreach_log := some log.id }
        let db :=
          { db with
            outreachLogs :=
              (db.outreachLogs.map (fun l =>
                if l.id = log.id then
                  { l with follow_up_count := l.follow_up_count + 1,
                           last_follow_up_date := some now }
                else l)) ++ [follow_up_log] }
        (completeTask db task.id now, "success")
      else (db, "error:email_send_failed")

/-! ### Statements taken from the specification's words

These two definitions transcribe the spec, for comparison against the
definitions above that transcribe the source. -/

/-- The score formula exactly as the claim states it, a function of the
matched-item list lengths, the start-date flag and the rejected-deals count
alone (the claim quantifies over the match flags but its formula does not
mention them). -/
def matchScoreSpec (matched_industry_1 matched_industry_2 matched_skills : List String)
    (start_date_priority : Bool) (rejected_deals_count : Nat) : ℚ :=
  max 0 (min 1
    (0.40 * min 1 ((matched_industry_1.length : ℚ) / 1) +
     0.20 * min 1 ((matched_industry_2.length : ℚ) / 1) +
     0.25 * min 1 ((matched_skills.length : ℚ) / 3) +
     (if start_date_priority then 0.15 else 0) -
     (if rejected_deals_count ≥ 2 then 0.15 else 0)))

/-- The candidate location text the matcher reads: the primary field, else the
current-location field, else empty. -/
def candidateLocationText (contact : Contact) : String :=
  if optTruthy contact.location then optStr contact.location
  else if optTruthy contact.current_location_v2 then optStr contact.current_location_v2
  else ""

/-- Location agreement as the claim words it: both sides non-empty (after
lowercasing and stripping) and equal, or one containing the other. -/
def locationAgreesSpec (contact : Contact) (role : InternRole) : Bool :=
  let cl := stripStr (lowerStr (candidateLocationText contact))
  let rl := stripStr (lowerStr (optStr role.location))
  cl ≠ "" ∧ rl ≠ "" ∧ (cl = rl ∨ strIn cl rl ∨ strIn rl cl)

/-! ### Concrete databases for the witnesses and counterexamples -/

/-- A candidate: primary interest Finance, in London, not urgent, placement
active. -/
def contactC1 : Contact :=
  { id := "c1", industry_choice_1 := some "Finance", location := some "London",
    start_date := some 1100, requires_a_visa := some "no",
    student_status := some "ACTIVE: Placement" }

/-- A hybrid Finance role in London owned by company `a1`. -/
def roleR1 : InternRole :=
  { id := "r1", role_tags := some "Finance", location := some "London",
    company_work_policy := some "Hybrid", intern_company_id := some "a1",
    role_title := some "Finance Intern", intern_company_name := some "Acme Ltd" }

/-- A second role of the same database whose tag list is empty (no industry
match possible in either bucket). -/
def roleR2 : InternRole :=
  { id := "r2", role_tags := none, location := some "London",
    company_work_policy := some "Hybrid", intern_company_id := some "a1" }

/-- Company `a1`: not DNC, 10 employees, and a follow-up date of *yesterday*
relative to `today = 1000`. -/
def accountA1 : Account :=
  { id := "a1", is_dnc := false, follow_up_date := some 999, no_employees := some "10" }

/-- Matcher database for the stale-follow-up-date scenario. -/
def mdb1 : MatcherDB :=
  { contacts := [contactC1], roles := [roleR1], accounts := [accountA1],
    deals := [], skills := [], rejectedDeals := fun _ => 0, today := 1000 }

/-- `mdb1` with the tagless role added (for the industry hard-gate witness). -/
def mdb3 : MatcherDB := { mdb1 with roles := [roleR1, roleR2] }

/-- The match `find_matches_for_contact` computes for `c1` against `r1`. -/
def matchM1 : MatchRec :=
  { contact_id := "c1", intern_role_id := "r1", match_score := 2/5,
    industry_1_match := true, industry_2_match := false, skill_match := false,
    start_date_priority := false,
    matched_industry_1 := ["Finance (exact match)"], matched_industry_2 := [],
    matched_skills := [],
    match_reason := "Industry 1: Finance (exact match)",
    role_title := some "Finance Intern", company_name := some "Acme Ltd" }

/-- Outreach database holding `c1`'s stored match for `r1` (score 0.4). -/
def adb1 : AppDB :=
  { contacts := [contactC1], jobMatches := [toJobMatch matchM1], history := [],
    outreachLogs := [], followUpTasks := [], today := 1000 }

/-- A candidate with a secondary-interest match only, one skill. -/
def contactC7 : Contact :=
  { id := "c7", industry_choice_2 := some "Finance", location := some "London" }

/-- A role whose text matches the skill and whose company has a healthy
profile, but which carries 2 rejected/closed deals. -/
def roleR7 : InternRole :=
  { id := "r7", role_tags := some "Finance", location := some "London",
    company_work_policy := some "Hybrid", intern_company_id := some "a7",
    role_description_requirements := some "Python developer" }

def accountA7 : Account :=
  { id := "a7", follow_up_date := some 2000, no_employees := some "10" }

/-- Matcher database where `c7`–`r7` scores 0.2 + 0.25/3 − 0.15 = 2/15,
publishable (> 0.1) but below the 0.2 quality threshold. -/
def mdb7 : MatcherDB :=
  { contacts := [contactC7], roles := [roleR7], accounts := [accountA7],
    deals := [], skills := [⟨"c7", "Python"⟩], rejectedDeals := fun _ => 2,
    today := 1000 }

/-- The match `find_matches_for_contact` computes for `c7` against `r7`. -/
def matchM7 : MatchRec :=
  { contact_id := "c7", intern_role_id := "r7", match_score := 2/15,
    industry_1_match := false, industry_2_match := true, skill_match := true,
    start_date_priority := false,
    matched_industry_1 := [], matched_industry_2 := ["Finance (exact match)"],
    matched_skills := ["Python"],
    match_reason := "Industry 2: Finance (exact match); Skills: Python; " ++
      "Rejected deals penalty (2 deals, -0.10)",
    role_title := none, company_name := none }

/-- A *remote* candidate (location mentions Remote) whose location text still
contains the role's city. -/
def contactC8 : Contact :=
  { id := "c8", industry_choice_1 := some "Finance", location := some "Remote, London" }

/-- A hybrid-only role (no remote support in policy or `open_to_remote`). -/
def roleR8 : InternRole :=
  { id := "r8", role_tags := some "Finance", location := some "London",
    company_work_policy := some "Hybrid", intern_company_id := some "a8" }

def accountA8 : Account :=
  { id := "a8", follow_up_date := some 2000, no_employees := some "10" }

/-- Matcher database for the work-policy scenario. -/
def mdb8 : MatcherDB :=
  { contacts := [contactC8], roles := [roleR8], accounts := [accountA8],
    deals := [], skills := [], rejectedDeals := fun _ => 0, today := 1000 }

/-- A non-urgent placement-active candidate with two stored matches. -/
def contactC4 : Contact :=
  { id := "c4", location := some "London", start_date := some 1100,
    requires_a_visa := some "no", student_status := some "ACTIVE: Placement",
    role_success_stage := some "In Progress" }

/-- Outreach database where candidate `c4` holds active quality matches for
two different roles and no outreach history. -/
def adb4 : AppDB :=
  { contacts := [contactC4],
    jobMatches :=
      [{ contact_id := "c4", intern_role_id := "rA", match_score := 1/2, status := "active" },
       { contact_id := "c4", intern_role_id := "rB", match_score := 1/2, status := "active" }],
    history := [], outreachLogs := [], followUpTasks := [], today := 1000 }

/-- An initial outreach log (for the scheduling and response claims). -/
def logL1 : OutreachLog :=
  { id := 1, intern_role_id := "r1", subject := "Outstanding Interns",
    sender_email := "spec@x", recipients := ["partner@acme"],
    candidate_ids := ["c1"], candidates_count := 1, is_sent := true,
    sent_at := some 5000 }

/-- A second, unrelated outreach log with its own incomplete task. -/
def logL2 : OutreachLog :=
  { id := 2, intern_role_id := "r9", subject := "Other role",
    sender_email := "spec@x", recipients := ["partner@other"],
    candidate_ids := ["c9"], candidates_count := 1, is_sent := true,
    sent_at := some 6000 }

/-- Database before `schedule_follow_ups` runs for `logL1`. -/
def adb5 : AppDB :=
  { contacts := [contactC1], jobMatches := [], history := [],
    outreachLogs := [logL1], followUpTasks := [], today := 0 }

/-- Database for the response short-circuit: both logs have an incomplete
task, `logL1` also a completed one, and each log a history row. -/
def adb6 : AppDB :=
  { contacts := [contactC1], jobMatches := [],
    history :=
      [{ contact_id := "c1", intern_role_id := "r1", outreach_log := 1,
         initial_outreach_date := 5000 },
       { contact_id := "c9", intern_role_id := "r9", outreach_log := 2,
         initial_outreach_date := 6000 }],
    outreachLogs := [logL1, logL2],
    followUpTasks :=
      [{ id := 10, outreach_log := 1, follow_up_type := "follow_up",
         scheduled_date := 5000 + 48 * 3600 },
       { id := 11, outreach_log := 1, follow_up_type := "final",
         scheduled_date := 5000 + 96 * 3600, completed := true,
         completed_at := some 7000 },
       { id := 12, outreach_log := 2, follow_up_type := "follow_up",
         scheduled_date := 6000 + 48 * 3600 }],
    today := 0 }

/-- A candidate with *no* partnership specialist on file. -/
def contactC9 : Contact := { id := "c9", location := some "Berlin" }

/-- A due follow-up task for `logL9`. -/
def taskT9 : FollowUpTask :=
  { id := 10, outreach_log := 9, follow_up_type := "follow_up",
    scheduled_date := 6000 }

/-- The log `taskT9` belongs to: its candidate resolves, but no specialist
can be found for any of its candidates. -/
def logL9 : OutreachLog :=
  { id := 9, intern_role_id := "r9", subject := "Outstanding Interns",
    sender_email := "spec@x", recipients := ["partner@acme"],
    candidate_ids := ["c9"], candidates_count := 1, is_sent := true,
    sent_at := some 5000 }

/-- Database for the failed-sender follow-up scenario. -/
def adb9 : AppDB :=
  { contacts := [contactC9], jobMatches := [], history := [],
    outreachLogs := [logL9], followUpTasks := [taskT9], today := 0 }

/-- The match `find_matches_for_contact` computes for `c8` against `r8`. -/
def matchM8 : MatchRec :=
  { contact_id := "c8", intern_role_id := "r8", match_score := 2/5,
    industry_1_match := true, industry_2_match := false, skill_match := false,
    start_date_priority := false,
    matched_industry_1 := ["Finance (exact match)"], matched_industry_2 := [],
    matched_skills := [],
    match_reason := "Industry 1: Finance (exact match)",
    role_title := none, company_name := none }

/-! ### Verification-side definitions -/

/-- The candidate ids a pool entry holds. -/
def entryIds (e : String × List CandInfo) : List String := e.2.map CandInfo.contact_id

/-- No candidate id appears in the lists of two different entries. -/
def BucketsDisjoint (bs : List (String × List CandInfo)) : Prop :=
  bs.Pairwise (fun e1 e2 => ∀ cid, cid ∈ entryIds e1 → cid ∉ entryIds e2)

/-- The loop invariant of the urgent pool builder: every allocated candidate
id is in the used set, bucket keys are unique, and buckets are pairwise
disjoint. -/
def UrgentInv (st : UrgentState) : Prop :=
  (∀ e ∈ st.buckets, ∀ cid ∈ entryIds e, cid ∈ st.used) ∧
  (st.buckets.map Prod.fst).Nodup ∧ BucketsDisjoint st.buckets

/-! ## Helper lemmas -/

theorem mem_insertByScore {x m : MatchRec} {l : List MatchRec} :
    x ∈ insertByScore l m ↔ x ∈ l ∨ x = m := by
  induction l with
  | nil => simp [insertByScore]
  | cons a l ih =>
    by_cases hc : a.match_score ≥ m.match_score
    · simp only [insertByScore, if_pos hc, List.mem_cons, ih]
      tauto
    · simp only [insertByScore, if_neg hc, List.mem_cons]
      tauto

theorem mem_foldl_insertByScore {x : MatchRec} {l acc : List MatchRec} :
    x ∈ l.foldl insertByScore acc ↔ x ∈ acc ∨ x ∈ l := by
  induction l generalizing acc with
  | nil => simp
  | cons a l ih =>
    simp only [List.foldl, ih, mem_insertByScore, List.mem_cons]
    tauto

theorem mem_sortByScoreDesc {x : MatchRec} {l : List MatchRec} :
    x ∈ sortByScoreDesc l ↔ x ∈ l := by
  simp [sortByScoreDesc, mem_foldl_insertByScore]

/-- Everything `matchRoleForContact` guarantees about a match it emits. -/
theorem matchRole_inv {gpt : Option GptMatcher} {db : MatcherDB} {contact : Contact}
    {i1 i2 : List String} {role : InternRole} {m : MatchRec}
    (h : matchRoleForContact gpt db contact i1 i2 role = some m) :
    m.contact_id = contact.id ∧ m.intern_role_id = role.id ∧
    (m.industry_1_match, m.matched_industry_1) = check_industry_match gpt i1 (get_role_tags role) ∧
    (m.industry_2_match, m.matched_industry_2) = check_industry_match gpt i2 (get_role_tags role) ∧
    (m.industry_1_match = true ∨ m.industry_2_match = true) ∧
    check_location_match contact role = true ∧
    (m.skill_match, m.matched_skills) = check_skill_match db contact.id role ∧
    m.start_date_priority = check_start_date_priority db contact role ∧
    m.match_score = calculate_match_score m.industry_1_match m.industry_2_match m.skill_match
        m.matched_industry_1 m.matched_industry_2 m.matched_skills m.start_date_priority
        (db.rejectedDeals role.id) ∧
    0.1 < m.match_score := by
  simp only [matchRoleForContact] at h
  split at h
  · exact absurd h (by simp)
  split at h
  · exact absurd h (by simp)
  split at h
  · exact absurd h (by simp)
  split at h
  · exact absurd h (by simp)
  next hloc =>
  split at h
  · exact absurd h (by simp)
  next hgate =>
  split at h
  case isTrue hscore =>
    obtain rfl := (Option.some.injEq _ _).mp h.symm
    refine ⟨rfl, rfl, Prod.mk.eta, Prod.mk.eta, by tauto,
      by simpa using hloc, Prod.mk.eta, rfl, rfl, hscore⟩
  · exact absurd h (by simp)

/-- Every computed match arises from the stored contact and one of the
database's roles. -/
theorem mem_find_matches {gpt : Option GptMatcher} {db : MatcherDB} {cid : String}
    {m : MatchRec} (h : m ∈ find_matches_for_contact gpt db cid) :
    ∃ contact, findContact db cid = some contact ∧
      ∃ role ∈ db.roles,
        matchRoleForContact gpt db contact (get_contact_industries contact).1
          (get_contact_industries contact).2 role = some m := by
  unfold find_matches_for_contact at h
  rcases hfc : findContact db cid with _ | contact <;> rw [hfc] at h
  · simp at h
  · refine ⟨contact, rfl, ?_⟩
    rcases hgi : get_contact_industries contact with ⟨i1, i2⟩
    simp only [hgi] at h
    rw [mem_sortByScoreDesc, List.mem_filterMap] at h
    obtain ⟨role, hrole, hsome⟩ := h
    exact ⟨role, List.mem_of_mem_filter hrole, hsome⟩

theorem appendBucket_fst {bs : List (String × List CandInfo)} {rid : String} {ci : CandInfo} :
    (appendBucket bs rid ci).map Prod.fst = bs.map Prod.fst := by
  unfold appendBucket
  rw [List.map_map]
  apply List.map_congr_left
  intro e _
  by_cases h : e.1 = rid <;> simp [h]

theorem mem_appendBucket {bs : List (String × List CandInfo)} {rid : String} {ci : CandInfo}
    {e' : String × List CandInfo} (h : e' ∈ appendBucket bs rid ci) :
    ∃ e ∈ bs, e' = e ∨ e' = (e.1, e.2 ++ [ci]) := by
  rw [appendBucket, List.mem_map] at h
  obtain ⟨e, he, hm⟩ := h
  refine ⟨e, he, ?_⟩
  by_cases hk : e.1 = rid
  · rw [if_pos hk] at hm
    exact Or.inr hm.symm
  · rw [if_neg hk] at hm
    exact Or.inl hm.symm

theorem mem_ensureBucket {bs : List (String × List CandInfo)} {rid : String}
    {e : String × List CandInfo} (h : e ∈ ensureBucket bs rid) :
    e ∈ bs ∨ e = (rid, []) := by
  unfold ensureBucket at h
  split at h
  · exact Or.inl h
  · rcases List.mem_append.mp h with h' | h'
    · exact Or.inl h'
    · exact Or.inr (by simpa using h')

theorem ensureBucket_nodup {bs : List (String × List CandInfo)} {rid : String}
    (h : (bs.map Prod.fst).Nodup) : ((ensureBucket bs rid).map Prod.fst).Nodup := by
  unfold ensureBucket
  split
  · exact h
  next hna =>
    rw [List.map_append, List.nodup_append]
    refine ⟨h, by simp, ?_⟩
    intro a ha
    simp only [List.map_cons, List.map_nil, List.mem_singleton]
    intro hrid
    subst hrid
    rw [List.mem_map] at ha
    obtain ⟨e, he, hfst⟩ := ha
    exact hna (List.any_eq_true.mpr ⟨e, he, by simp [hfst]⟩)

theorem ensureBucket_disjoint {bs : List (String × List CandInfo)} {rid : String}
    (h : BucketsDisjoint bs) : BucketsDisjoint (ensureBucket bs rid) := by
  unfold ensureBucket
  split
  · exact h
  · rw [BucketsDisjoint, List.pairwise_append]
    exact ⟨h, List.pairwise_singleton _ _, by simp [entryIds]⟩

/-- The three shapes one urgent-pass iteration can take: unchanged, a fresh
empty bucket only, or a fresh empty bucket plus one appended candidate (whose
id equals the match's and was not yet used). -/
theorem urgentStep_cases (db : AppDB) (limit : Nat) (st : UrgentState) (jm : JobMatch) :
    urgentStep db limit st jm = st ∨
    urgentStep db limit st jm = { st with buckets := ensureBucket st.buckets jm.intern_role_id } ∨
    ∃ ci : CandInfo, ci.contact_id = jm.contact_id ∧ ci.match_score = jm.match_score ∧
      jm.contact_id ∉ st.used ∧
      urgentStep db limit st jm =
        { buckets := appendBucket (ensureBucket st.buckets jm.intern_role_id)
            jm.intern_role_id ci,
          used := st.used ++ [jm.contact_id] } := by
  rcases hhead : (db.contacts.filter (fun c => c.id = jm.contact_id)).head? with _ | c
  · left
    simp only [urgentStep, hhead]
  · have hcid : c.id = jm.contact_id := by
      have := (List.mem_filter.mp (List.mem_of_mem_head? hhead)).2
      simpa using this
    simp only [urgentStep, hhead]
    split
    · exact Or.inl rfl
    split
    · exact Or.inl rfl
    split
    · exact Or.inl rfl
    next hused =>
    split
    · exact Or.inr (Or.inr ⟨⟨c.id, jm.match_score⟩, hcid, rfl, by simpa using hused, rfl⟩)
    · exact Or.inr (Or.inl rfl)

theorem urgentStep_inv {db : AppDB} {limit : Nat} {st : UrgentState} {jm : JobMatch}
    (h : UrgentInv st) : UrgentInv (urgentStep db limit st jm) := by
  obtain ⟨hA, hK, hP⟩ := h
  rcases urgentStep_cases db limit st jm with heq | heq | ⟨ci, hciid, _, hused, heq⟩ <;> rw [heq]
  · exact ⟨hA, hK, hP⟩
  · refine ⟨?_, ensureBucket_nodup hK, ensureBucket_disjoint hP⟩
    intro e he cid hcid
    rcases mem_ensureBucket he with he' | rfl
    · exact hA e he' cid hcid
    · simp [entryIds] at hcid
  · have hfreshEns : ∀ e ∈ ensureBucket st.buckets jm.intern_role_id,
        ci.contact_id ∉ entryIds e := by
      intro e he hc
      rcases mem_ensureBucket he with he' | rfl
      · exact hused (by rw [← hciid]; exact hA e he' ci.contact_id hc)
      · simp [entryIds] at hc
    have hEnsA : ∀ e ∈ ensureBucket st.buckets jm.intern_role_id,
        ∀ cid ∈ entryIds e, cid ∈ st.used := by
      intro e he cid hcid
      rcases mem_ensureBucket he with he' | rfl
      · exact hA e he' cid hcid
      · simp [entryIds] at hcid
    have hEnsK : ((ensureBucket st.buckets jm.intern_role_id).map Prod.fst).Nodup :=
      ensureBucket_nodup hK
    have hEnsP : BucketsDisjoint (ensureBucket st.buckets jm.intern_role_id) :=
      ensureBucket_disjoint hP
    refine ⟨?_, ?_, ?_⟩
    · intro e' he' cid hcid
      obtain ⟨e, he, hcase⟩ := mem_appendBucket he'
      have : cid ∈ entryIds e ∨ cid = ci.contact_id := by
        rcases hcase with rfl | rfl
        · exact Or.inl hcid
        · simp only [entryIds, List.map_append, List.mem_append] at hcid
          rcases hcid with h' | h'
          · exact Or.inl h'
          · exact Or.inr (by simpa using h')
      rcases this with h' | rfl
      · exact List.mem_append_left _ (hEnsA e he cid h')
      · rw [hciid]; simp
    · rw [appendBucket_fst]; exact hEnsK
    · rw [BucketsDisjoint, appendBucket, List.pairwise_map]
      have hKeyP : (ensureBucket st.buckets jm.intern_role_id).Pairwise
          (fun e1 e2 => e1.1 ≠ e2.1) := List.pairwise_map.mp hEnsK
      refine List.Pairwise.imp_of_mem ?_ (List.Pairwise.and hEnsP hKeyP)
      rintro e1 e2 h1 h2 ⟨hdisj, hne⟩ cid hcid1 hcid2
      by_cases hk1 : e1.1 = jm.intern_role_id <;> by_cases hk2 : e2.1 = jm.intern_role_id
      · exact hne (hk1.trans hk2.symm)
      · rw [if_pos hk1] at hcid1
        rw [if_neg hk2] at hcid2
        simp only [entryIds, List.map_append, List.mem_append] at hcid1
        rcases hcid1 with h' | h'
        · exact hdisj cid h' hcid2
        · simp only [List.map_cons, List.map_nil, List.mem_singleton] at h'
          subst h'
          exact hfreshEns e2 h2 hcid2
      · rw [if_neg hk1] at hcid1
        rw [if_pos hk2] at hcid2
        simp only [entryIds, List.map_append, List.mem_append] at hcid2
        rcases hcid2 with h' | h'
        · exact hdisj cid hcid1 h'
        · simp only [List.map_cons, List.map_nil, List.mem_singleton] at h'
          subst h'
          exact hfreshEns e1 h1 hcid1
      · rw [if_neg hk1] at hcid1
        rw [if_neg hk2] at hcid2
        exact hdisj cid hcid1 hcid2

theorem urgent_fold_inv (db : AppDB) (limit : Nat) (l : List JobMatch) (st : UrgentState)
    (h : UrgentInv st) : UrgentInv (l.foldl (urgentStep db limit) st) := by
  induction l generalizing st with
  | nil => exact h
  | cons jm l ih => exact ih _ (urgentStep_inv h)

theorem mem_insPoolOrder {x m : JobMatch} {l : List JobMatch} :
    x ∈ insPoolOrder l m ↔ x ∈ l ∨ x = m := by
  induction l with
  | nil => simp [insPoolOrder]
  | cons a l ih =>
    unfold insPoolOrder
    split
    · simp only [List.mem_cons, ih]
      tauto
    · simp only [List.mem_cons]
      tauto

theorem mem_foldl_insPoolOrder {x : JobMatch} {l acc : List JobMatch} :
    x ∈ l.foldl insPoolOrder acc ↔ x ∈ acc ∨ x ∈ l := by
  induction l generalizing acc with
  | nil => simp
  | cons a l ih =>
    simp only [List.foldl, ih, mem_insPoolOrder, List.mem_cons]
    tauto

/-- The matches a pool-building pass walks: exactly the active stored rows at
or above the 0.2 quality threshold. -/
theorem mem_poolMatches {db : AppDB} {jm : JobMatch} :
    jm ∈ poolMatches db ↔ jm ∈ db.jobMatches ∧ jm.status = "active" ∧ 0.2 ≤ jm.match_score := by
  unfold poolMatches
  rw [mem_foldl_insPoolOrder]
  simp only [List.mem_nil_iff, false_or, List.mem_filter]
  constructor
  · rintro ⟨h1, h2⟩
    simp only [decide_eq_true_eq] at h2
    exact ⟨h1, h2.1, h2.2⟩
  · rintro ⟨h1, h2, h3⟩
    exact ⟨h1, by simp only [decide_eq_true_eq]; exact ⟨h2, h3⟩⟩

/-- A candidate-level property survives `ensureBucket`. -/
theorem bucketsProp_ensure {P : CandInfo → Prop} {bs : List (String × List CandInfo)}
    {rid : String} (h : ∀ e ∈ bs, ∀ ci ∈ e.2, P ci) :
    ∀ e ∈ ensureBucket bs rid, ∀ ci ∈ e.2, P ci := by
  intro e he ci hci
  rcases mem_ensureBucket he with he' | rfl
  · exact h e he' ci hci
  · simp at hci

/-- A candidate-level property survives `appendBucket` when the appended
candidate has it. -/
theorem bucketsProp_append {P : CandInfo → Prop} {bs : List (String × List CandInfo)}
    {rid : String} {ci0 : CandInfo} (h : ∀ e ∈ bs, ∀ ci ∈ e.2, P ci) (h0 : P ci0) :
    ∀ e ∈ appendBucket bs rid ci0, ∀ ci ∈ e.2, P ci := by
  intro e' he' ci hci
  obtain ⟨e, he, hcase⟩ := mem_appendBucket he'
  obtain h1 | h1 := hcase <;> rw [h1] at hci
  · exact h e he ci hci
  · simp only [List.mem_append, List.mem_singleton] at hci
    rcases hci with h' | rfl
    · exact h e he ci h'
    · exact h0

/-- The bucket shapes one normal-pass iteration can produce. -/
theorem topStep_buckets_cases (db : AppDB) (limit : Nat) (st : TopState) (jm : JobMatch) :
    (topStep db limit st jm).buckets = st.buckets ∨
    (topStep db limit st jm).buckets = ensureBucket st.buckets jm.intern_role_id ∨
    ∃ ci : CandInfo, ci.contact_id = jm.contact_id ∧ ci.match_score = jm.match_score ∧
      (topStep db limit st jm).buckets =
        appendBucket (ensureBucket st.buckets jm.intern_role_id) jm.intern_role_id ci := by
  rcases hhead : (db.contacts.filter (fun c =>
      c.id = jm.contact_id ∧ c.student_status = some "ACTIVE: Placement" ∧
        ¬(c.role_success_stage = some "Role Confirmed"))).head? with _ | c
  · left
    simp only [topStep, hhead]
  · have hcid : c.id = jm.contact_id := by
      have := (List.mem_filter.mp (List.mem_of_mem_head? hhead)).2
      simp only [decide_eq_true_eq] at this
      exact this.1
    simp only [topStep, hhead]
    split
    · tauto
    split
    · tauto
    split
    · tauto
    split
    · rcases hget : db.contacts.find? (fun c => c.id = jm.contact_id) with _ | c2
      · simp only [hget]
        tauto
      · have hc2 : c2.id = jm.contact_id := by
          have := List.find?_some hget
          simpa using this
        simp only [hget]
        exact Or.inr (Or.inr ⟨⟨c2.id, jm.match_score⟩, hc2, rfl, rfl⟩)
    · tauto

/-- Every candidate the normal pass allocates carries the score of one of the
walked matches (all of which are at or above the quality threshold). -/
theorem topFold_scores (db : AppDB) (limit : Nat) : ∀ (l : List JobMatch) (st : TopState),
    (∀ jm ∈ l, 0.2 ≤ jm.match_score) →
    (∀ e ∈ st.buckets, ∀ ci ∈ e.2, 0.2 ≤ ci.match_score) →
    ∀ e ∈ (l.foldl (topStep db limit) st).buckets, ∀ ci ∈ e.2, 0.2 ≤ ci.match_score := by
  intro l
  induction l with
  | nil => exact fun st _ hst => hst
  | cons jm l ih =>
    intro st hl hst
    apply ih _ (fun x hx => hl x (List.mem_cons_of_mem _ hx))
    rcases topStep_buckets_cases db limit st jm with heq | heq | ⟨ci, _, hsc, heq⟩ <;> rw [heq]
    · exact hst
    · exact bucketsProp_ensure hst
    · exact bucketsProp_append (bucketsProp_ensure hst)
        (by rw [hsc]; exact hl jm (List.mem_cons_self _ _))

/-- Same score bound along the urgent pass. -/
theorem urgentFold_scores (db : AppDB) (limit : Nat) : ∀ (l : List JobMatch) (st : UrgentState),
    (∀ jm ∈ l, 0.2 ≤ jm.match_score) →
    (∀ e ∈ st.buckets, ∀ ci ∈ e.2, 0.2 ≤ ci.match_score) →
    ∀ e ∈ (l.foldl (urgentStep db limit) st).buckets, ∀ ci ∈ e.2, 0.2 ≤ ci.match_score := by
  intro l
  induction l with
  | nil => exact fun st _ hst => hst
  | cons jm l ih =>
    intro st hl hst
    apply ih _ (fun x hx => hl x (List.mem_cons_of_mem _ hx))
    rcases urgentStep_cases db limit st jm with heq | heq | ⟨ci, _, hsc, _, heq⟩ <;> rw [heq]
    · exact hst
    · exact bucketsProp_ensure hst
    · exact bucketsProp_append (bucketsProp_ensure hst)
        (by rw [hsc]; exact hl jm (List.mem_cons_self _ _))

/-! ## Evaluation lemmas for the concrete databases -/

theorem mdb1_perRole :
    matchRoleForContact none mdb1 contactC1 ["finance"] [] roleR1 = some matchM1 := by
  have hdnc : check_company_dnc_status mdb1 roleR1 = false := by decide
  have hratio : check_intern_to_employee_ratio mdb1 roleR1 (some contactC1) = false := by decide
  have hadl : check_active_deals_limit mdb1 roleR1 = false := by decide
  have hloc : check_location_match contactC1 roleR1 = true := by decide
  have hind1 : check_industry_match none ["finance"] (get_role_tags roleR1) =
    (true, ["Finance (exact match)"]) := by decide
  have hind2 : check_industry_match none [] (get_role_tags roleR1) = (false, []) := by decide
  have hsk : check_skill_match mdb1 "c1" roleR1 = (false, []) := by decide
  have hsdp : check_start_date_priority mdb1 contactC1 roleR1 = false := by decide
  have hid : contactC1.id = "c1" := rfl
  simp only [matchRoleForContact, hdnc, hratio, hadl, hloc, hid, hind1, hind2, hsk, hsdp,
    calculate_match_score]
  norm_num [matchM1, buildMatchReason, mdb1]
  decide

theorem mdb1_matches : find_matches_for_contact none mdb1 "c1" = [matchM1] := by
  have hc : findContact mdb1 "c1" = some contactC1 := by decide
  have hind : get_contact_industries contactC1 = (["finance"], []) := by decide
  have hroles : mdb1.roles.filter (fun r =>
      icontains (optStr r.company_work_policy) "Hybrid" ∨
        icontains (optStr r.company_work_policy) "Office-based") = [roleR1] := by decide
  simp only [find_matches_for_contact, hc, hind, hroles, List.filterMap, mdb1_perRole,
    sortByScoreDesc, List.foldl, insertByScore]

theorem adb1_pool : get_top_candidates_by_role adb1 =
    [("r1", [{ contact_id := "c1", match_score := 2/5 }])] := by
  have hpm : poolMatches adb1 = [toJobMatch matchM1] := by
    norm_num +decide [poolMatches, adb1, toJobMatch, matchM1, insPoolOrder]
  have hurg : check_urgency adb1.today contactC1 = false := by decide
  simp only [get_top_candidates_by_role, hpm, List.foldl, topStep]
  norm_num +decide [adb1, toJobMatch, matchM1, alreadyPitched, perCandCount,
    ensureBucket, bucketList, appendBucket, bumpPerCand, hurg]

theorem mdb7_perRole :
    matchRoleForContact none mdb7 contactC7 [] ["finance"] roleR7 = some matchM7 := by
  have hdnc : check_company_dnc_status mdb7 roleR7 = false := by decide
  have hratio : check_intern_to_employee_ratio mdb7 roleR7 (some contactC7) = false := by decide
  have hadl : check_active_deals_limit mdb7 roleR7 = false := by decide
  have hloc : check_location_match contactC7 roleR7 = true := by decide
  have hind1 : check_industry_match none [] (get_role_tags roleR7) = (false, []) := by decide
  have hind2 : check_industry_match none ["finance"] (get_role_tags roleR7) =
    (true, ["Finance (exact match)"]) := by decide
  have hsk : check_skill_match mdb7 "c7" roleR7 = (true, ["Python"]) := by decide
  have hsdp : check_start_date_priority mdb7 contactC7 roleR7 = false := by decide
  have hid : contactC7.id = "c7" := rfl
  simp only [matchRoleForContact, hdnc, hratio, hadl, hloc, hid, hind1, hind2, hsk, hsdp,
    calculate_match_score]
  norm_num [matchM7, buildMatchReason, mdb7]
  decide

theorem mdb7_matches : find_matches_for_contact none mdb7 "c7" = [matchM7] := by
  have hc : findContact mdb7 "c7" = some contactC7 := by decide
  have hind : get_contact_industries contactC7 = ([], ["finance"]) := by decide
  have hroles : mdb7.roles.filter (fun r =>
      icontains (optStr r.company_work_policy) "Hybrid" ∨
        icontains (optStr r.company_work_policy) "Office-based") = [roleR7] := by decide
  simp only [find_matches_for_contact, hc, hind, hroles, List.filterMap, mdb7_perRole,
    sortByScoreDesc, List.foldl, insertByScore]

theorem jobMatchCreate_none (m : MatchRec) : jobMatchCreate m = none := rfl

theorem match_jobs_always_empty (gpt : Option GptMatcher) (db : MatcherDB)
    (cid : String) (min_score : ℚ) :
    match_jobs_for_contact gpt db cid min_score = [] := by
  unfold match_jobs_for_contact
  exact List.filterMap_eq_nil_iff.mpr (fun m _ => jobMatchCreate_none m)

theorem mdb7_stored : match_jobs_for_contact none mdb7 "c7" = [] :=
  match_jobs_always_empty none mdb7 "c7" 0.2

theorem mdb8_perRole :
    matchRoleForContact none mdb8 contactC8 ["finance"] [] roleR8 = some matchM8 := by
  have hdnc : check_company_dnc_status mdb8 roleR8 = false := by decide
  have hratio : check_intern_to_employee_ratio mdb8 roleR8 (some contactC8) = false := by decide
  have hadl : check_active_deals_limit mdb8 roleR8 = false := by decide
  have hloc : check_location_match contactC8 roleR8 = true := by decide
  have hind1 : check_industry_match none ["finance"] (get_role_tags roleR8) =
    (true, ["Finance (exact match)"]) := by decide
  have hind2 : check_industry_match none [] (get_role_tags roleR8) = (false, []) := by decide
  have hsk : check_skill_match mdb8 "c8" roleR8 = (false, []) := by decide
  have hsdp : check_start_date_priority mdb8 contactC8 roleR8 = false := by decide
  have hid : contactC8.id = "c8" := rfl
  simp only [matchRoleForContact, hdnc, hratio, hadl, hloc, hid, hind1, hind2, hsk, hsdp,
    calculate_match_score]
  norm_num [matchM8, buildMatchReason, mdb8]
  decide

theorem mdb8_matches : find_matches_for_contact none mdb8 "c8" = [matchM8] := by
  have hc : findContact mdb8 "c8" = some contactC8 := by decide
  have hind : get_contact_industries contactC8 = (["finance"], []) := by decide
  have hroles : mdb8.roles.filter (fun r =>
      icontains (optStr r.company_work_policy) "Hybrid" ∨
        icontains (optStr r.company_work_policy) "Office-based") = [roleR8] := by decide
  simp only [find_matches_for_contact, hc, hind, hroles, List.filterMap, mdb8_perRole,
    sortByScoreDesc, List.foldl, insertByScore]

theorem adb4_pool : get_top_candidates_by_role adb4 =
    [("rA", [{ contact_id := "c4", match_score := 1/2 }]),
     ("rB", [{ contact_id := "c4", match_score := 1/2 }])] := by
  have h1 : check_urgency adb4.today contactC4 = false := by decide
  norm_num +decide [get_top_candidates_by_role, poolMatches, adb4, topStep, List.foldl,
    alreadyPitched, perCandCount, ensureBucket, bucketList, appendBucket, bumpPerCand, h1,
    contactC4, insPoolOrder]

/-! ## Claim theorems -/

/-- C1.  The spec (and the matcher module's own docstring, criterion 2) say a
role whose company has an empty, today, or past `follow_up_date` is excluded
from matching and from every outreach pool.  The code never calls
`check_company_follow_up_date`: in `mdb1` the company's follow-up date is
yesterday (the check itself returns "excluded"), yet the role is returned by
`find_matches_for_contact`, and once stored its match enters the normal
outreach pool. -/
theorem follow_up_date_gate_not_enforced :
    check_company_follow_up_date mdb1 roleR1 = true ∧
    accountA1.follow_up_date = some (mdb1.today - 1) ∧
    (find_matches_for_contact none mdb1 "c1").map (·.intern_role_id) = ["r1"] ∧
    (get_top_candidates_by_role adb1).map (fun e => e.1) = ["r1"] := by
  refine ⟨by decide, by decide, ?_, ?_⟩
  · rw [mdb1_matches]; rfl
  · rw [adb1_pool]; rfl

/-- C2 counterexample.  The claim's formula depends only on the matched-item
list lengths, yet `calculate_match_score` gates every term on its flag: with
`industry_1_match = false` and one matched industry item the code returns 0
while the claim's formula returns 0.40. -/
theorem calculate_match_score_ignores_flags_refuted :
    calculate_match_score false false false ["x"] [] [] false 0 = 0 ∧
    matchScoreSpec ["x"] [] [] false 0 = 2/5 ∧
    calculate_match_score false false false ["x"] [] [] false 0 ≠
      matchScoreSpec ["x"] [] [] false 0 := by
  refine ⟨by norm_num [calculate_match_score], by norm_num [matchScoreSpec], ?_⟩
  norm_num [calculate_match_score, matchScoreSpec]

/-- C2 amended.  `calculate_match_score` equals the claim's formula with each
weighted term additionally gated on its match flag; the clamp to [0, 1] holds
for every input (including when the penalty drives the raw sum negative), and
a primary-industry-only match on a role with 2 rejected/closed deals scores
exactly 0.25. -/
theorem calculate_match_score_gated_formula :
    (∀ (i1 i2 sm : Bool) (m1 m2 ms : List String) (sdp : Bool) (rj : Nat),
      calculate_match_score i1 i2 sm m1 m2 ms sdp rj =
        max 0 (min 1
          ((if i1 then 0.40 * min 1 ((m1.length : ℚ) / 1) else 0) +
           (if i2 then 0.20 * min 1 ((m2.length : ℚ) / 1) else 0) +
           (if sm then 0.25 * min 1 ((ms.length : ℚ) / 3) else 0) +
           (if sdp then 0.15 else 0) - (if rj ≥ 2 then 0.15 else 0)))) ∧
    (∀ (i1 i2 sm : Bool) (m1 m2 ms : List String) (sdp : Bool) (rj : Nat),
      0 ≤ calculate_match_score i1 i2 sm m1 m2 ms sdp rj ∧
        calculate_match_score i1 i2 sm m1 m2 ms sdp rj ≤ 1) ∧
    calculate_match_score true false false ["Finance"] [] [] false 2 = 0.25 := by
  refine ⟨?_, ?_, by norm_num [calculate_match_score]⟩
  · intro i1 i2 sm m1 m2 ms sdp rj
    simp only [calculate_match_score]
    split_ifs <;> ring_nf
  · intro i1 i2 sm m1 m2 ms sdp rj
    simp only [calculate_match_score]
    exact ⟨le_max_left _ _, max_le (by norm_num) (min_le_left _ _)⟩

/-- C8.  The spec (and the matcher module's docstring, "unless student is
remote, then remote only") says a remote candidate matches only
remote-supporting roles.  `check_work_policy_match` implements exactly that
and returns `false` for the remote candidate `c8` against the hybrid-only role
`r8` — but `find_matches_for_contact` never calls it (it only pre-filters
roles whose policy text mentions Hybrid/Office-based), so the pair is matched
anyway. -/
theorem work_policy_check_not_enforced :
    check_work_policy_match contactC8 roleR8 = false ∧
    strIn "remote" (lowerStr (optStr contactC8.location)) = true ∧
    (find_matches_for_contact none mdb8 "c8").map (·.intern_role_id) = ["r8"] := by
  refine ⟨by decide, by decide, ?_⟩
  rw [mdb8_matches]; rfl

/-- C4 counterexample.  In the normal batch over `adb4` the single candidate
`c4` is allocated to both roles `rA` and `rB`: `get_top_candidates_by_role`
has no global per-pass de-duplication (only a per-candidate cap of 4), so the
claimed invariant fails for the normal pass. -/
theorem normal_pass_candidate_reused_across_roles :
    (get_top_candidates_by_role adb4).map (fun e => (e.1, e.2.map CandInfo.contact_id)) =
      [("rA", ["c4"]), ("rB", ["c4"])] ∧
    ¬ BucketsDisjoint (get_top_candidates_by_role adb4) := by
  constructor
  · rw [adb4_pool]; rfl
  · rw [adb4_pool]
    intro h
    rw [BucketsDisjoint, List.pairwise_cons] at h
    have := h.1 _ (List.mem_singleton_self _) "c4"
    simp [entryIds] at this

/-- C4 amended.  Within a single urgent pool-building pass each candidate is
allocated to at most one role: in `get_urgent_candidates_by_role`'s result no
candidate id appears in the lists of two different entries.  (The normal pass
has no such global de-duplication — see the counterexample — so the amended
claim is restricted to the urgent pass.) -/
theorem urgent_pass_candidate_dedup (db : AppDB) (limit : Nat) :
    BucketsDisjoint (get_urgent_candidates_by_role db limit) := by
  have hinv : UrgentInv (((poolMatches db).foldl (urgentStep db limit))
      { buckets := [], used := [] }) := by
    apply urgent_fold_inv
    exact ⟨by simp, by simp, List.Pairwise.nil⟩
  unfold get_urgent_candidates_by_role
  exact List.Pairwise.sublist (List.filter_sublist _) hinv.2.2

/-- C7.  The storage half of the claim is violated by the code: every
`JobMatch.objects.create` of the recompute-and-store path passes the keyword
arguments `industry_1_match`, `industry_2_match`, `matched_industry_1` and
`matched_industry_2`, none of which is a field of the `JobMatch` model, so
`Model.__init__` raises `TypeError` before any insert; the per-row handler
swallows it while the preceding delete has already run, so after any
recompute the contact's stored rows are empty — here `c1`'s computed match of
score 2/5, above both thresholds, is deleted-and-not-restored.  The other
thresholds of the claim do hold: a computed result is kept only above 0.1,
and both pool builders only allocate candidates whose stored score is at
least 0.2. -/
theorem quality_match_computed_but_never_stored :
    jobMatchCreateKwargs.filter (fun k => ! jobMatchFields.contains k) =
      ["industry_1_match", "industry_2_match",
       "matched_industry_1", "matched_industry_2"] ∧
    (∀ (gpt : Option GptMatcher) (db : MatcherDB) (cid : String) (min_score : ℚ),
      match_jobs_for_contact gpt db cid min_score = []) ∧
    (find_matches_for_contact none mdb1 "c1").map (·.match_score) = [2/5] ∧
    (0.2 : ℚ) ≤ 2/5 ∧
    (∀ (gpt : Option GptMatcher) (db : MatcherDB) (cid : String),
      ∀ m ∈ find_matches_for_contact gpt db cid, 0.1 < m.match_score) ∧
    (∀ (db : AppDB) (limit : Nat),
      ∀ e ∈ get_top_candidates_by_role db limit, ∀ ci ∈ e.2, 0.2 ≤ ci.match_score) ∧
    (∀ (db : AppDB) (limit : Nat),
      ∀ e ∈ get_urgent_candidates_by_role db limit, ∀ ci ∈ e.2, 0.2 ≤ ci.match_score) := by
  refine ⟨by decide, ?_, ?_, by norm_num, ?_, ?_, ?_⟩
  · intro gpt db cid min_score
    exact match_jobs_always_empty gpt db cid min_score
  · rw [mdb1_matches]
    norm_num [matchM1]
  · intro gpt db cid m hm
    obtain ⟨contact, _, role, _, hsome⟩ := mem_find_matches hm
    exact (matchRole_inv hsome).2.2.2.2.2.2.2.2.2
  · intro db limit e he ci hci
    have he' : e ∈ (((poolMatches db).foldl (topStep db limit))
        { buckets := [], perCandidate := [] }).buckets := by
      have hsub : (((((poolMatches db).foldl (topStep db limit))
          { buckets := [], perCandidate := [] }).buckets).filter
            (fun e => ¬(e.2 = []))).Sublist
          ((((poolMatches db).foldl (topStep db limit))
            { buckets := [], perCandidate := [] }).buckets) := List.filter_sublist _
      exact hsub.mem he
    exact topFold_scores db limit (poolMatches db) _
      (fun jm hjm => (mem_poolMatches.mp hjm).2.2) (by simp) e he' ci hci
  · intro db limit e he ci hci
    have he' : e ∈ (((poolMatches db).foldl (urgentStep db limit))
        { buckets := [], used := [] }).buckets := by
      have hsub : (((((poolMatches db).foldl (urgentStep db limit))
          { buckets := [], used := [] }).buckets).filter
            (fun e => ¬(e.2 = []))).Sublist
          ((((poolMatches db).foldl (urgentStep db limit))
            { buckets := [], used := [] }).buckets) := List.filter_sublist _
      exact hsub.mem he
    exact urgentFold_scores db limit (poolMatches db) _
      (fun jm hjm => (mem_poolMatches.mp hjm).2.2) (by simp) e he' ci hci

theorem check_location_match_eq_spec (contact : Contact) (role : InternRole) :
    check_location_match contact role = locationAgreesSpec contact role := by
  unfold check_location_match locationAgreesSpec candidateLocationText
  split <;> simp_all [Bool.and_assoc]

theorem check_location_match_empty (contact : Contact) (role : InternRole)
    (h1 : contact.location = none ∨ contact.location = some "")
    (h2 : contact.current_location_v2 = none ∨ contact.current_location_v2 = some "") :
    check_location_match contact role = false := by
  unfold check_location_match
  have e1 : optTruthy contact.location = false := by
    rcases h1 with h | h <;> simp [h, optTruthy]
  have e2 : optTruthy contact.current_location_v2 = false := by
    rcases h2 with h | h <;> simp [h, optTruthy]
  rw [e1, e2]
  simp [stripStr, lowerStr]

theorem matchRole_none_of_no_location {gpt : Option GptMatcher} {db : MatcherDB}
    {contact : Contact} {i1 i2 : List String} {role : InternRole}
    (h : check_location_match contact role = false) :
    matchRoleForContact gpt db contact i1 i2 role = none := by
  unfold matchRoleForContact
  rw [h]
  split
  · rfl
  split
  · rfl
  split
  · rfl
  simp

/-- C10.  Location agreement is a hard gate: every computed match comes from a
role whose location text and the candidate's are both non-empty with one
containing the other (case-insensitively); its numeric score is the
location-free `calculate_match_score` of the recorded sub-results; and a
candidate whose location fields are all empty computes no matches at all. -/
theorem location_hard_gate (gpt : Option GptMatcher) (db : MatcherDB) (cid : String) :
    (∀ m ∈ find_matches_for_contact gpt db cid,
      ∃ contact role, findContact db cid = some contact ∧ role ∈ db.roles ∧
        m.intern_role_id = role.id ∧
        check_location_match contact role = true ∧
        locationAgreesSpec contact role = true ∧
        m.match_score = calculate_match_score m.industry_1_match m.industry_2_match
          m.skill_match m.matched_industry_1 m.matched_industry_2 m.matched_skills
          m.start_date_priority (db.rejectedDeals role.id)) ∧
    (∀ contact, findContact db cid = some contact →
      (contact.location = none ∨ contact.location = some "") →
      (contact.current_location_v2 = none ∨ contact.current_location_v2 = some "") →
      find_matches_for_contact gpt db cid = []) := by
  constructor
  · intro m hm
    obtain ⟨contact, hc, role, hrole, hsome⟩ := mem_find_matches hm
    obtain ⟨_, hid, _, _, _, hloc, _, _, hscore, _⟩ := matchRole_inv hsome
    refine ⟨contact, role, hc, hrole, hid, hloc, ?_, hscore⟩
    rw [← check_location_match_eq_spec]
    exact hloc
  · intro contact hc h1 h2
    unfold find_matches_for_contact
    rw [hc]
    have hnone : ∀ role, matchRoleForContact gpt db contact
        (get_contact_industries contact).1 (get_contact_industries contact).2 role = none :=
      fun role => matchRole_none_of_no_location (check_location_match_empty contact role h1 h2)
    have hfm : List.filterMap (matchRoleForContact gpt db contact
        (get_contact_industries contact).1 (get_contact_industries contact).2)
        (db.roles.filter (fun r =>
          icontains (optStr r.company_work_policy) "Hybrid" ∨
            icontains (optStr r.company_work_policy) "Office-based")) = [] := by
      rw [List.filterMap_eq_nil_iff]
      exact fun a _ => hnone a
    simp only [hfm, sortByScoreDesc, List.foldl]

/-- C3.  Industry relevance is a hard gate: when the industry check matches a
role's tags in neither the primary nor the secondary interest bucket, that
role appears neither among the contact's computed matches nor among the rows
the recompute stores. -/
theorem industry_match_hard_gate (gpt : Option GptMatcher) (db : MatcherDB)
    (cid : String) (contact : Contact) (role : InternRole) (min_score : ℚ)
    (hnodup : (db.roles.map (·.id)).Nodup)
    (hc : findContact db cid = some contact)
    (hrole : role ∈ db.roles)
    (h1 : (check_industry_match gpt (get_contact_industries contact).1
      (get_role_tags role)).1 = false)
    (h2 : (check_industry_match gpt (get_contact_industries contact).2
      (get_role_tags role)).1 = false) :
    (∀ m ∈ find_matches_for_contact gpt db cid, m.intern_role_id ≠ role.id) ∧
    (∀ jm ∈ match_jobs_for_contact gpt db cid min_score, jm.intern_role_id ≠ role.id) := by
  have hcomputed : ∀ m ∈ find_matches_for_contact gpt db cid, m.intern_role_id ≠ role.id := by
    intro m hm heq
    obtain ⟨contact', hc', role', hrole', hsome⟩ := mem_find_matches hm
    rw [hc] at hc'
    obtain rfl : contact = contact' := Option.some.inj hc'
    obtain ⟨_, hid, hpair1, hpair2, hgate, _⟩ := matchRole_inv hsome
    have hsame : role' = role :=
      List.inj_on_of_nodup_map hnodup hrole' hrole (by rw [← hid, heq])
    subst hsame
    have e1 : m.industry_1_match = (check_industry_match gpt
        (get_contact_industries contact).1 (get_role_tags role')).1 := by
      rw [← hpair1]
    have e2 : m.industry_2_match = (check_industry_match gpt
        (get_contact_industries contact).2 (get_role_tags role')).1 := by
      rw [← hpair2]
    rcases hgate with hg | hg
    · rw [e1, h1] at hg
      exact Bool.false_ne_true hg
    · rw [e2, h2] at hg
      exact Bool.false_ne_true hg
  refine ⟨hcomputed, ?_⟩
  intro jm hjm
  unfold match_jobs_for_contact at hjm
  rw [List.mem_filterMap] at hjm
  obtain ⟨m, hm, hcr⟩ := hjm
  rw [jobMatchCreate_none] at hcr
  exact absurd hcr (by simp)

/-- C3 witness: in `mdb3` role `r2` has an empty tag list, so the industry
check matches in neither bucket and no computed or stored match names it. -/
theorem industry_match_hard_gate_witness :
    (∀ m ∈ find_matches_for_contact none mdb3 "c1", m.intern_role_id ≠ roleR2.id) ∧
    (∀ jm ∈ match_jobs_for_contact none mdb3 "c1" 0.2, jm.intern_role_id ≠ roleR2.id) :=
  industry_match_hard_gate none mdb3 "c1" contactC1 roleR2 0.2
    (by decide) (by decide) (by decide) (by decide) (by decide)

/-- C5.  At initial-send time `schedule_follow_ups` creates exactly three
tasks for the new log — `follow_up` at +48h, `final` at +96h, `move_to_next`
at +144h — and every task of that log is initially incomplete. -/
theorem schedule_follow_ups_three_tasks (db : AppDB) (log : OutreachLog) (now : Int)
    (freshId : Nat) (hfresh : ∀ t ∈ db.followUpTasks, t.outreach_log ≠ log.id) :
    (schedule_follow_ups db log now freshId).followUpTasks.filter
        (fun t => t.outreach_log = log.id) =
      [{ id := freshId, outreach_log := log.id, follow_up_type := "follow_up",
         scheduled_date := now + 48 * 3600 },
       { id := freshId + 1, outreach_log := log.id, follow_up_type := "final",
         scheduled_date := now + 96 * 3600 },
       { id := freshId + 2, outreach_log := log.id, follow_up_type := "move_to_next",
         scheduled_date := now + 144 * 3600 }] ∧
    ∀ t ∈ (schedule_follow_ups db log now freshId).followUpTasks,
      t.outreach_log = log.id → t.completed = false := by
  constructor
  · simp only [schedule_follow_ups]
    rw [List.filter_append]
    have h0 : db.followUpTasks.filter (fun t => t.outreach_log = log.id) = [] := by
      rw [List.filter_eq_nil_iff]
      intro t ht
      simpa using hfresh t ht
    rw [h0]
    simp [List.filter]
  · intro t ht hlog
    simp only [schedule_follow_ups, List.mem_append] at ht
    rcases ht with ht | ht
    · exact absurd hlog (hfresh t ht)
    · simp only [List.mem_cons, List.mem_singleton] at ht
      rcases ht with rfl | rfl | rfl | h <;> first | rfl | exact absurd h (by simp)

/-- C5 witness: scheduling for the fresh log `logL1` over `adb5`. -/
theorem schedule_follow_ups_three_tasks_witness :
    (schedule_follow_ups adb5 logL1 5000 20).followUpTasks.filter
        (fun t => t.outreach_log = logL1.id) =
      [{ id := 20, outreach_log := logL1.id, follow_up_type := "follow_up",
         scheduled_date := 5000 + 48 * 3600 },
       { id := 21, outreach_log := logL1.id, follow_up_type := "final",
         scheduled_date := 5000 + 96 * 3600 },
       { id := 22, outreach_log := logL1.id, follow_up_type := "move_to_next",
         scheduled_date := 5000 + 144 * 3600 }] ∧
    ∀ t ∈ (schedule_follow_ups adb5 logL1 5000 20).followUpTasks,
      t.outreach_log = logL1.id → t.completed = false :=
  schedule_follow_ups_three_tasks adb5 logL1 5000 20 (by decide)

/-- C6.  `mark_response_received` on log `L` sets `L`'s response fields,
completes every still-incomplete task of `L`, and leaves every task of any
other log and every other log itself unchanged. -/
theorem mark_response_received_frame (db : AppDB) (lid : Nat) (rt : String) (now : Int)
    (L : OutreachLog) (hL : db.outreachLogs.find? (fun l => l.id = lid) = some L) :
    (mark_response_received db lid rt now).2 = true ∧
    (∀ l ∈ (mark_response_received db lid rt now).1.outreachLogs,
      l.id = lid → l.response_received = true ∧ l.response_date = some now ∧
        l.response_type = some rt) ∧
    (∀ l : OutreachLog, l.id ≠ lid →
      (l ∈ (mark_response_received db lid rt now).1.outreachLogs ↔ l ∈ db.outreachLogs)) ∧
    (∀ t ∈ db.followUpTasks, t.outreach_log = lid → t.completed = false →
      { t with completed := true, completed_at := some now } ∈
        (mark_response_received db lid rt now).1.followUpTasks) ∧
    (∀ t ∈ (mark_response_received db lid rt now).1.followUpTasks,
      t.outreach_log = lid → t.completed = true) ∧
    (∀ t : FollowUpTask, t.outreach_log ≠ lid →
      (t ∈ (mark_response_received db lid rt now).1.followUpTasks ↔ t ∈ db.followUpTasks)) := by
  have hLid : L.id = lid := by simpa using List.find?_some hL
  unfold mark_response_received
  rw [hL]
  simp only
  refine ⟨trivial, ?_, ?_, ?_, ?_, ?_⟩
  · intro l hl hid
    rw [List.mem_map] at hl
    obtain ⟨l0, hl0, rfl⟩ := hl
    by_cases h0 : l0.id = lid
    · simp [h0]
    · simp only [if_neg h0] at hid ⊢
      exact absurd hid h0
  · intro l hne
    constructor
    · intro hl
      rw [List.mem_map] at hl
      obtain ⟨l0, hl0, rfl⟩ := hl
      by_cases h0 : l0.id = lid
      · rw [if_pos h0] at hne ⊢
        exact absurd h0 (by simpa using hne)
      · rw [if_neg h0]
        exact hl0
    · intro hl
      rw [List.mem_map]
      refine ⟨l, hl, ?_⟩
      rw [if_neg hne]
  · intro t ht hlog hcomp
    rw [List.mem_map]
    refine ⟨t, ht, ?_⟩
    rw [if_pos]
    exact ⟨by rw [hlog, hLid], hcomp⟩
  · intro t ht hlog
    rw [List.mem_map] at ht
    obtain ⟨t0, ht0, rfl⟩ := ht
    by_cases h0 : t0.outreach_log = L.id ∧ t0.completed = false
    · rw [if_pos h0]
    · rw [if_neg h0] at hlog ⊢
      rcases Decidable.not_and_iff_or_not.mp h0 with h | h
      · exact absurd (hlog.trans hLid.symm) h
      · simpa using h
  · intro t hne
    constructor
    · intro ht
      rw [List.mem_map] at ht
      obtain ⟨t0, ht0, rfl⟩ := ht
      by_cases h0 : t0.outreach_log = L.id ∧ t0.completed = false
      · rw [if_pos h0] at hne ⊢
        exact absurd (h0.1.trans hLid) (by simpa using hne)
      · rw [if_neg h0]
        exact ht0
    · intro ht
      rw [List.mem_map]
      refine ⟨t, ht, ?_⟩
      rw [if_neg]
      rintro ⟨hlog, -⟩
      exact hne (hlog.trans hLid)

/-- C6 witness: marking a response on log 1 of `adb6` completes its pending
task and leaves log 2 and its task untouched. -/
theorem mark_response_received_frame_witness :
    (mark_response_received adb6 1 "interested" 8000).2 = true ∧
    (∀ l ∈ (mark_response_received adb6 1 "interested" 8000).1.outreachLogs,
      l.id = 1 → l.response_received = true ∧ l.response_date = some 8000 ∧
        l.response_type = some "interested") ∧
    (∀ l : OutreachLog, l.id ≠ 1 →
      (l ∈ (mark_response_received adb6 1 "interested" 8000).1.outreachLogs ↔
        l ∈ adb6.outreachLogs)) ∧
    (∀ t ∈ adb6.followUpTasks, t.outreach_log = 1 → t.completed = false →
      { t with completed := true, completed_at := some 8000 } ∈
        (mark_response_received adb6 1 "interested" 8000).1.followUpTasks) ∧
    (∀ t ∈ (mark_response_received adb6 1 "interested" 8000).1.followUpTasks,
      t.outreach_log = 1 → t.completed = true) ∧
    (∀ t : FollowUpTask, t.outreach_log ≠ 1 →
      (t ∈ (mark_response_received adb6 1 "interested" 8000).1.followUpTasks ↔
        t ∈ adb6.followUpTasks)) :=
  mark_response_received_frame adb6 1 "interested" 8000 logL1 (by decide)

/-- C9 counterexample.  Over `adb9` the due task's log has a resolvable
candidate but no resolvable sender; processing returns an error, the task is
*not* marked completed, and a later sweep selects it again — against the
claim that unresolved sender/recipients still complete the task. -/
theorem unresolved_sender_task_retried :
    (send_follow_up_email (fun _ => none) true adb9 taskT9 logL9 7000 30).2 =
      "error:no_partnership_specialist" ∧
    (∀ t ∈ (send_follow_up_email (fun _ => none) true adb9 taskT9 logL9 7000 30).1.followUpTasks,
      t.completed = false) ∧
    taskT9 ∈ pending_follow_up_tasks
      (send_follow_up_email (fun _ => none) true adb9 taskT9 logL9 7000 30).1 99999 := by
  decide

/-- C9 amended.  When a due `follow_up`/`final` task is processed: unresolvable
*candidates* do complete the task with a skipped result (no later sweep ever
selects it again), but an unresolvable sender, or an empty recipient list,
returns an error result and leaves the database — the task included —
unchanged, so a later sweep selects the still-incomplete task again. -/
theorem follow_up_unresolved_outcomes (specialist : String → Option SenderInfo)
    (sendOk : Bool) (db : AppDB) (task : FollowUpTask) (log : OutreachLog)
    (now : Int) (newLogId : Nat) :
    (log.candidate_ids.filterMap (fun cid => db.contacts.find? (fun c => c.id = cid)) = [] →
      (send_follow_up_email specialist sendOk db task log now newLogId).2 =
        "skipped:no_candidates" ∧
      (∀ t ∈ (send_follow_up_email specialist sendOk db task log now newLogId).1.followUpTasks,
        t.id = task.id → t.completed = true) ∧
      (∀ n : Int, ∀ t ∈ pending_follow_up_tasks
          (send_follow_up_email specialist sendOk db task log now newLogId).1 n,
        t.id ≠ task.id)) ∧
    (log.candidate_ids.filterMap (fun cid => db.contacts.find? (fun c => c.id = cid)) ≠ [] →
      resolveSender specialist (log.candidate_ids.filterMap
        (fun cid => db.contacts.find? (fun c => c.id = cid))) = none →
      send_follow_up_email specialist sendOk db task log now newLogId =
        (db, "error:no_partnership_specialist")) ∧
    (∀ s : SenderInfo,
      log.candidate_ids.filterMap (fun cid => db.contacts.find? (fun c => c.id = cid)) ≠ [] →
      resolveSender specialist (log.candidate_ids.filterMap
        (fun cid => db.contacts.find? (fun c => c.id = cid))) = some s →
      log.recipients = [] →
      send_follow_up_email specialist sendOk db task log now newLogId =
        (db, "error:email_send_failed")) := by
  refine ⟨?_, ?_, ?_⟩
  · intro hempty
    have hres : send_follow_up_email specialist sendOk db task log now newLogId =
        (completeTask db task.id now, "skipped:no_candidates") := by
      unfold send_follow_up_email
      rw [hempty]
      rfl
    rw [hres]
    have hcompleted : ∀ t ∈ (completeTask db task.id now).followUpTasks,
        t.id = task.id → t.completed = true := by
      intro t ht hid
      unfold completeTask at ht
      simp only [List.mem_map] at ht
      obtain ⟨t0, ht0, rfl⟩ := ht
      by_cases h0 : t0.id = task.id
      · rw [if_pos h0]
      · rw [if_neg h0] at hid ⊢
        exact absurd hid h0
    refine ⟨rfl, hcompleted, ?_⟩
    intro n t ht hid
    unfold pending_follow_up_tasks at ht
    rw [List.mem_filter] at ht
    have := hcompleted t ht.1 hid
    have h2 := ht.2
    simp only [decide_eq_true_eq] at h2
    rw [this] at h2
    exact absurd h2.1 (by decide)
  · intro hne hsender
    unfold send_follow_up_email
    rw [if_neg (by simpa using hne), hsender]
  · intro s hne hsender hrec
    unfold send_follow_up_email
    rw [if_neg (by simpa using hne), hsender]
    simp only [hrec]
    rw [if_neg]
    simp

end BA
